import Mathlib

/-!
Verification of the Hackathon-Judge score-aggregation and report-assembly
pipeline: a shallow embedding of the scoring script, the per-team HTML report
renderer, the cross-team index page grading, and the PR-comment builder,
together with theorems settling the specification claims.

Modelling conventions for the JavaScript source:
* JS numbers that the scripts only ever hold as integers are `Nat`/`Int`.
* `Math.round (n / 100)` on a nonnegative integer `n` is `(n + 50) / 100`
  (round half away from zero coincides with round half up there).
* `x || d` on possibly-absent values is modelled by `Option` plus an explicit
  falsy test (absent, `0`, `""` select the default).
* JS `Array.prototype.sort` (stable since ES2019) is a stable sort with the
  comparator-induced `≤`; since a stable sort of a list under a total
  preorder is unique, it is embedded as `List.insertionSort` (stable, and
  structurally recursive, hence kernel-evaluable).
* `String.prototype.localeCompare` is modelled as code-point lexicographic
  comparison.
* Locale/clock dependent formatting (`toLocaleDateString`, `toISOString`) is
  modelled by identity on the stored string / an explicit clock parameter.
-/

/-! ## JavaScript primitive models -/

/-- A decidable code-point lexicographic `≤` on char lists (model of
`localeCompare`, which Lean's opaque `String` order cannot evaluate). -/
def lexLe : List Char → List Char → Bool
  | [], _ => true
  | _ :: _, [] => false
  | a :: as, b :: bs =>
    if a.toNat < b.toNat then true
    else if b.toNat < a.toNat then false
    else lexLe as bs

/-- `s.trim()` restricted to ASCII whitespace. -/
def jsTrim (s : String) : String :=
  let ws : Char → Bool := fun c => c = ' ' || c = '\t' || c = '\n' || c = '\r'
  String.mk (((s.data.dropWhile ws).reverse.dropWhile ws).reverse)

/-- `s.endsWith(suffix)`, evaluable in the kernel. -/
def jsEndsWith (s suffix : String) : Bool :=
  suffix.data.reverse.isPrefixOf s.data.reverse

/-- Boolean substring test: does `needle` occur contiguously in `hay`? -/
def listContainsSub [DecidableEq α] (needle hay : List α) : Bool :=
  match hay with
  | [] => needle.isEmpty
  | _ :: t => needle.isPrefixOf hay || listContainsSub needle t

/-- `hay` contains `needle` as a substring (boolean, kernel-evaluable). -/
def strContainsSub (needle hay : String) : Bool :=
  listContainsSub needle.data hay.data

/-- `needle` occurs in `hay`: the propositional counterpart used for
universally quantified statements. -/
def SContains (needle hay : String) : Prop :=
  needle.data <:+: hay.data

/-- `process.env.X || d`: an absent or empty environment value falls back to
the default `d`. -/
def envOrDefault (v : Option String) (d : String) : String :=
  match v with
  | some s => if s = "" then d else s
  | none => d

/-- `x || d` for an optional JS string (absent and `""` are falsy). -/
def jsOrStr (v : Option String) (d : String) : String :=
  match v with
  | some s => if s = "" then d else s
  | none => d

/-- `x || d` for an optional JS integer (absent and `0` are falsy). -/
def jsOrInt (v : Option Int) (d : Int) : Int :=
  match v with
  | some n => if n = 0 then d else n
  | none => d

/-- String interpolation of a possibly-absent value: JS renders `undefined`
for a missing field. -/
def jsShowOptInt (v : Option Int) : String :=
  match v with
  | some n => toString n
  | none => "undefined"

/-- String interpolation of a possibly-absent string field. -/
def jsShowOptStr (v : Option String) : String :=
  match v with
  | some s => s
  | none => "undefined"

/-- `Math.round (n / 100)` for a nonnegative integer `n`. -/
def jsRound100 (n : Nat) : Nat := (n + 50) / 100

/-- Numeric value of a digit string (the digits kept by
`String(input).replace(/[^0-9]/g, "")`). -/
def digitsVal (ds : List Char) : Nat :=
  ds.foldl (fun acc c => 10 * acc + (c.toNat - '0'.toNat)) 0

/-! ## `calculate-score.js` (the score aggregator) -/

namespace CalcScore

/-- The fixed weights (must sum to 100). -/
structure Weights where
  TEST_WEIGHT : Nat
  SONAR_WEIGHT : Nat
  SECURITY_WEIGHT : Nat
  FRONTEND_WEIGHT : Nat
  TEAM_WEIGHT : Nat
  AI_WEIGHT : Nat
deriving Repr, DecidableEq

def WEIGHTS : Weights :=
  { TEST_WEIGHT := 25
    SONAR_WEIGHT := 30
    SECURITY_WEIGHT := 20
    FRONTEND_WEIGHT := 10
    TEAM_WEIGHT := 10
    AI_WEIGHT := 5 }

/-- `safeInt`: strip every non-digit character, `parseInt` the remainder
(`NaN`, i.e. no digit left, becomes 0), clamp into `[0, 100]`. -/
def safeInt (input : String) : Nat :=
  let ds := input.data.filter Char.isDigit
  match ds with
  | [] => 0
  | _ => min (max (digitsVal ds) 0) 100

/-- `calculateGrade`: the aggregator's letter grade step function. -/
def calculateGrade (score : Int) : String :=
  if score ≥ 90 then "A"
  else if score ≥ 80 then "B"
  else if score ≥ 70 then "C"
  else if score ≥ 60 then "D"
  else "F"

/-- The six validated component scores. -/
structure Scores where
  test : Nat
  sonar : Nat
  security : Nat
  frontend : Nat
  team : Nat
  ai : Nat
deriving Repr, DecidableEq

/-- The six per-component weighted contributions of the breakdown. -/
structure Contributions where
  test : Nat
  sonar : Nat
  security : Nat
  frontend : Nat
  team : Nat
  ai : Nat
deriving Repr, DecidableEq

/-- `score-breakdown.json` (the run timestamp, a side effect of the clock,
is not part of the model). -/
structure Breakdown where
  overall_score : Nat
  grade : String
  component_scores : Scores
  weights : Weights
  weighted_contributions : Contributions
deriving Repr, DecidableEq

/-- The raw environment inputs (`TEST_SCORE`, ... possibly unset). -/
structure RawInputs where
  test_score : Option String
  sonar_score : Option String
  security_score : Option String
  frontend_score : Option String
  team_score : Option String
  ai_score : Option String

/-- The weighted sum of `calculateScore`. -/
def weightedSumOf (s : Scores) : Nat :=
  s.test * WEIGHTS.TEST_WEIGHT +
  s.sonar * WEIGHTS.SONAR_WEIGHT +
  s.security * WEIGHTS.SECURITY_WEIGHT +
  s.frontend * WEIGHTS.FRONTEND_WEIGHT +
  s.team * WEIGHTS.TEAM_WEIGHT +
  s.ai * WEIGHTS.AI_WEIGHT

/-- The pure core of `calculateScore` on validated scores: weighted sum,
overall score, grade, and the persisted breakdown. -/
def computeBreakdown (scores : Scores) : Breakdown :=
  let weightedSum := weightedSumOf scores
  let overallScore := jsRound100 weightedSum
  { overall_score := overallScore
    grade := calculateGrade overallScore
    component_scores := scores
    weights := WEIGHTS
    weighted_contributions :=
      { test := jsRound100 (scores.test * WEIGHTS.TEST_WEIGHT)
        sonar := jsRound100 (scores.sonar * WEIGHTS.SONAR_WEIGHT)
        security := jsRound100 (scores.security * WEIGHTS.SECURITY_WEIGHT)
        frontend := jsRound100 (scores.frontend * WEIGHTS.FRONTEND_WEIGHT)
        team := jsRound100 (scores.team * WEIGHTS.TEAM_WEIGHT)
        ai := jsRound100 (scores.ai * WEIGHTS.AI_WEIGHT) } }

/-- `calculateScore` (the file-write and GitHub-output side effects are
not part of the model): validate each raw input, then build the breakdown. -/
def calculateScore (inputs : RawInputs) : Breakdown :=
  computeBreakdown
    { test := safeInt (envOrDefault inputs.test_score "0")
      sonar := safeInt (envOrDefault inputs.sonar_score "0")
      security := safeInt (envOrDefault inputs.security_score "0")
      frontend := safeInt (envOrDefault inputs.frontend_score "0")
      team := safeInt (envOrDefault inputs.team_score "0")
      ai := safeInt (envOrDefault inputs.ai_score "0") }

/-- Sum of the six persisted weighted contributions. -/
def contribSum (c : Contributions) : Nat :=
  c.test + c.sonar + c.security + c.frontend + c.team + c.ai

/-- Rank of a letter grade, for stating monotonicity. -/
def gradeRank (g : String) : Nat :=
  if g = "A" then 4
  else if g = "B" then 3
  else if g = "C" then 2
  else if g = "D" then 1
  else 0

end CalcScore

/-! ## `generate-html-report.js` (the per-team HTML report renderer) -/

namespace HtmlReport

/-- Result of the renderer's own `getScoreGrade`. -/
structure GradeInfo where
  grade : String
  color : String
  description : String
deriving Repr, DecidableEq

/-- The renderer's own grade step function (distinct from the aggregator's
`calculateGrade`). -/
def getScoreGrade (score : Int) : GradeInfo :=
  if score ≥ 90 then { grade := "A+", color := "#4CAF50", description := "Excellent" }
  else if score ≥ 80 then { grade := "A", color := "#8BC34A", description := "Very Good" }
  else if score ≥ 70 then { grade := "B", color := "#CDDC39", description := "Good" }
  else if score ≥ 60 then { grade := "C", color := "#FFC107", description := "Satisfactory" }
  else if score ≥ 50 then { grade := "D", color := "#FF9800", description := "Needs Improvement" }
  else { grade := "F", color := "#F44336", description := "Poor" }

/-- `component_scores` as read back from `score-breakdown.json`. -/
structure CompScores where
  test : Option Int
  sonar : Option Int
  security : Option Int
  frontend : Option Int
  team : Option Int
  ai : Option Int
deriving Repr, DecidableEq

/-- The empty object `{}` used when `scoreData` is absent. -/
def CompScores.empty : CompScores := ⟨none, none, none, none, none, none⟩

/-- `weights` as read back from `score-breakdown.json`. -/
structure WeightsObj where
  TEST_WEIGHT : Option Int
  SONAR_WEIGHT : Option Int
  SECURITY_WEIGHT : Option Int
  FRONTEND_WEIGHT : Option Int
  TEAM_WEIGHT : Option Int
  AI_WEIGHT : Option Int
deriving Repr, DecidableEq

def WeightsObj.empty : WeightsObj := ⟨none, none, none, none, none, none⟩

/-- `scores[cat.key]` for the six fixed category keys. -/
def compScoreOf (s : CompScores) (key : String) : Option Int :=
  if key = "test" then s.test
  else if key = "sonar" then s.sonar
  else if key = "security" then s.security
  else if key = "frontend" then s.frontend
  else if key = "team" then s.team
  else if key = "ai" then s.ai
  else none

/-- `weights[`KEY_WEIGHT`]` for the six fixed weight keys. -/
def weightOf (w : WeightsObj) (key : String) : Option Int :=
  if key = "TEST_WEIGHT" then w.TEST_WEIGHT
  else if key = "SONAR_WEIGHT" then w.SONAR_WEIGHT
  else if key = "SECURITY_WEIGHT" then w.SECURITY_WEIGHT
  else if key = "FRONTEND_WEIGHT" then w.FRONTEND_WEIGHT
  else if key = "TEAM_WEIGHT" then w.TEAM_WEIGHT
  else if key = "AI_WEIGHT" then w.AI_WEIGHT
  else none

/-- `score-breakdown.json` as seen by the renderer. -/
structure ScoreData where
  overall_score : Option Int
  grade : Option String
  component_scores : Option CompScores
  weights : Option WeightsObj
deriving Repr, DecidableEq

/-- `${key.toUpperCase()}` over ASCII. -/
def toUpper (s : String) : String := String.mk (s.data.map Char.toUpper)

/-- Truthiness of an optional JS string (absent and `""` are falsy). -/
def truthyStr (o : Option String) : Bool :=
  match o with
  | some s => s ≠ ""
  | none => false

/-- The five-character HTML escape map of the renderer
(`replace(/[<>&"']/g, ...)`). -/
def escChar (c : Char) : List Char :=
  if c = '<' then "&lt;".data
  else if c = '>' then "&gt;".data
  else if c = '&' then "&amp;".data
  else if c = '"' then "&quot;".data
  else if c = '\'' then "&#39;".data
  else [c]

/-- Apply the renderer's escape map to a whole string. -/
def escapeHtml (s : String) : String := String.mk (s.data.flatMap escChar)

/-- One fixed score-chart category (`key`, display name, icon). -/
structure Category where
  key : String
  name : String
  icon : String

def categories : List Category :=
  [ { key := "test", name := "Tests & Coverage", icon := "🧪" }
  , { key := "sonar", name := "Code Quality", icon := "⚡" }
  , { key := "security", name := "Security", icon := "🔒" }
  , { key := "frontend", name := "Frontend UX", icon := "🎨" }
  , { key := "team", name := "Team Collaboration", icon := "👥" }
  , { key := "ai", name := "AI Attribution", icon := "🤖" } ]

/-- `generateScoreChart`: one bar per category, joined with `""`. -/
def generateScoreChart (scores : CompScores) (weights : WeightsObj) : String :=
  String.join <| categories.map fun cat =>
    let score := jsOrInt (compScoreOf scores cat.key) 0
    let weight := jsOrInt (weightOf weights (toUpper cat.key ++ "_WEIGHT")) 0
    let color := (getScoreGrade score).color
    "\n      <div class=\"score-item\">\n        <div class=\"score-header\">\n          <span class=\"score-icon\">" ++ cat.icon ++
    "</span>\n          <span class=\"score-label\">" ++ cat.name ++
    "</span>\n          <span class=\"score-weight\">(" ++ toString weight ++
    "%)</span>\n        </div>\n        <div class=\"score-bar\">\n          <div class=\"score-fill\" style=\"width: " ++ toString score ++
    "%; background-color: " ++ color ++
    "\"></div>\n        </div>\n        <div class=\"score-value\">" ++ toString score ++
    "/100</div>\n      </div>\n    "

end HtmlReport

namespace HtmlReport

/-- `parseInt` (radix 10) on a JS string: leading whitespace, optional sign,
leading digits; `none` models `NaN`. -/
def parseIntJs (s : String) : Option Int :=
  let l := s.data.dropWhile (fun c => c = ' ' || c = '\t' || c = '\n' || c = '\r')
  let sign : Bool := match l with
    | '-' :: _ => true
    | _ => false
  let l' : List Char := match l with
    | '-' :: t => t
    | '+' :: t => t
    | t => t
  let ds := l'.takeWhile Char.isDigit
  match ds with
  | [] => none
  | _ => some (if sign then -(digitsVal ds : Int) else (digitsVal ds : Int))

/-- `parseInt(x) || 0` on a possibly-absent string field. -/
def parseIntOr0 (o : Option String) : Int := ((o.bind parseIntJs).getD 0)

/-- `(parseFloat(x) || 0).toFixed(1)` modelled in decimal: value in tenths,
rounded half-up on the second fraction digit (the binary-float rounding of
`toFixed` is approximated by decimal rounding). -/
def parseFloatTenths (s : String) : Option Int :=
  let l := s.data.dropWhile (fun c => c = ' ' || c = '\t' || c = '\n' || c = '\r')
  let sign : Bool := match l with
    | '-' :: _ => true
    | _ => false
  let l' : List Char := match l with
    | '-' :: t => t
    | '+' :: t => t
    | t => t
  let ip := l'.takeWhile Char.isDigit
  let rest := l'.dropWhile Char.isDigit
  let fr : List Char := match rest with
    | '.' :: t => t.takeWhile Char.isDigit
    | _ => []
  if ip = [] ∧ fr = [] then none
  else
    let d1 := (fr.headD '0').toNat - '0'.toNat
    let d2 := ((fr.drop 1).headD '0').toNat - '0'.toNat
    let t : Int := (digitsVal ip) * 10 + d1 + (if d2 ≥ 5 then 1 else 0)
    some (if sign then -t else t)

/-- Display of `(parseFloat(x) || 0).toFixed(1)`. -/
def coverageFixed1 (o : Option String) : String :=
  let t : Int := ((o.bind parseFloatTenths).getD 0)
  (if t < 0 then "-" else "") ++ toString (t.natAbs / 10) ++ "." ++ toString (t.natAbs % 10)

/-- `security-summary.json`: the fields read by the renderer. -/
structure SecuritySummary where
  totalIssues : Option Int
  score : Option Int
  highSeverity : Option Int
  mediumSeverity : Option Int
  lowSeverity : Option Int
deriving Repr, DecidableEq

structure SecurityData where
  summary : SecuritySummary
  details : Option String
deriving Repr, DecidableEq

/-- One Trivy vulnerability (the fields read by the renderer; the two CVSS
scores are kept as their display lexemes). -/
structure TrivyVuln where
  Severity : Option String
  VulnerabilityID : Option String
  PkgName : Option String
  InstalledVersion : Option String
  FixedVersion : Option String
  Title : Option String
  Description : Option String
  References : Option (List String)
  CVSS_nvd_V3Score : Option String
  CVSS_redhat_V3Score : Option String
deriving Repr, DecidableEq

structure TrivyTarget where
  Target : Option String
  Vulnerabilities : Option (List TrivyVuln)
deriving Repr, DecidableEq

/-- `severityColors[sev] || "#6c757d"` of `generateTrivyDetails`. -/
def trivySeverityColor (sev : Option String) : String :=
  jsOrStr
    (match sev with
     | some "CRITICAL" => some "#d73527"
     | some "HIGH" => some "#ff6b35"
     | some "MEDIUM" => some "#ff9500"
     | some "LOW" => some "#f7c52d"
     | some "UNKNOWN" => some "#6c757d"
     | _ => none) "#6c757d"

/-- `severityIcons[sev] || "•"` of `generateTrivyDetails`. -/
def trivySeverityIcon (sev : Option String) : String :=
  jsOrStr
    (match sev with
     | some "CRITICAL" => some "🚨"
     | some "HIGH" => some "❌"
     | some "MEDIUM" => some "⚠️"
     | some "LOW" => some "💡"
     | some "UNKNOWN" => some "❓"
     | _ => none) "•"

/-- `vuln.CVSS?.nvd?.V3Score || vuln.CVSS?.redhat?.V3Score || "N/A"`. -/
def cvssOf (v : TrivyVuln) : String :=
  jsOrStr
    (match v.CVSS_nvd_V3Score with
     | some s => some s
     | none => v.CVSS_redhat_V3Score) "N/A"

/-- One vulnerability item of `generateTrivyDetails`; note that `Title` and
`Description` are interpolated without any escaping. -/
def renderTrivyVuln (vuln : TrivyVuln) : String :=
  let severityColor := trivySeverityColor vuln.Severity
  let severityIcon := trivySeverityIcon vuln.Severity
  let cvssScore := cvssOf vuln
  "\n        <div class=\"vulnerability-item\">\n          <div class=\"vuln-header\">\n            <span class=\"severity-badge\" style=\"background-color: " ++
  severityColor ++
  "\">\n              " ++
  severityIcon ++ " " ++ jsShowOptStr vuln.Severity ++
  "\n            </span>\n            <span class=\"vuln-id\">" ++
  jsShowOptStr vuln.VulnerabilityID ++
  "</span>\n            <span class=\"cvss-score\">CVSS: " ++
  cvssScore ++
  "</span>\n          </div>\n          <div class=\"vuln-package\">\n            📦 Package: <strong>" ++
  jsShowOptStr vuln.PkgName ++
  "</strong> \n            (" ++
  jsShowOptStr vuln.InstalledVersion ++
  " → " ++
  jsOrStr vuln.FixedVersion "No fix available" ++
  ")\n          </div>\n          <div class=\"vuln-title\">" ++
  jsShowOptStr vuln.Title ++
  "</div>\n          <div class=\"vuln-description\">" ++
  jsShowOptStr vuln.Description ++
  "</div>\n          <div class=\"vuln-links\">\n            " ++
  (match vuln.References with
   | some refs => String.intercalate " " (refs.map fun ref =>
       "<a href=\"" ++ ref ++ "\" target=\"_blank\" class=\"ref-link\">🔗 Reference</a>")
   | none => "") ++
  "\n          </div>\n        </div>\n      "

/-- One target block of `generateTrivyDetails` (skipped when it has no
vulnerabilities). -/
def renderTrivyTarget (target : TrivyTarget) : String :=
  match target.Vulnerabilities with
  | none => ""
  | some vulns =>
    if vulns.isEmpty then ""
    else
      "\n      <div class=\"trivy-target\">\n        <h5>📦 " ++
      jsShowOptStr target.Target ++
      "</h5>\n        <div class=\"vulnerabilities-list\">\n    " ++
      String.join (vulns.map renderTrivyVuln) ++
      "\n        </div>\n      </div>\n    "

/-- `generateTrivyDetails` (its `githubRepo` parameter is never used in the
body). -/
def generateTrivyDetails (trivyData : List TrivyTarget)
    (_githubRepo : String := "CoTuring/NodeGoat") : String :=
  "\n    <div class=\"trivy-details\">\n      <h4>🛡️ Security Vulnerabilities (Trivy)</h4>\n  " ++
  String.join (trivyData.map renderTrivyTarget) ++
  "\n    </div>\n  "

/-- `generateSecurityDetails`. -/
def generateSecurityDetails (securityData : Option SecurityData)
    (trivyData : Option (List TrivyTarget)) : String :=
  match securityData with
  | none => "<p>No security data available</p>"
  | some sd =>
    let totalIssues := jsOrInt sd.summary.totalIssues 0
    if totalIssues = 0 ∧ (match trivyData with | none => true | some l => l.isEmpty) = true then
      "\n      <div class=\"security-success\">\n        <div class=\"success-icon\">🛡️</div>\n        <h3>Excellent Security!</h3>\n        <p>No security vulnerabilities detected</p>\n        <div class=\"score-display\">Score: " ++
      jsShowOptInt sd.summary.score ++
      "/100</div>\n      </div>\n    "
    else
      "\n    <div class=\"security-issues\">\n      <div class=\"issue-summary\">\n        <div class=\"issue-count high\">High: " ++
      toString (jsOrInt sd.summary.highSeverity 0) ++
      "</div>\n        <div class=\"issue-count medium\">Medium: " ++
      toString (jsOrInt sd.summary.mediumSeverity 0) ++
      "</div>\n        <div class=\"issue-count low\">Low: " ++
      toString (jsOrInt sd.summary.lowSeverity 0) ++
      "</div>\n      </div>\n      <p class=\"security-details\">" ++
      jsOrStr sd.details "See security scan for details" ++
      "</p>\n    </div>\n  " ++
      (match trivyData with
       | some l =>
         if l.length > 0 then generateTrivyDetails l
         else "\n      <div style=\"margin-top: 20px; padding: 15px; background: #d4edda; border-radius: 8px; color: #155724;\">\n        <p><strong>🛡️ No security vulnerabilities found by Trivy scanner!</strong></p>\n      </div>\n    "
       | none => "\n      <div style=\"margin-top: 20px; padding: 15px; background: #d4edda; border-radius: 8px; color: #155724;\">\n        <p><strong>🛡️ No security vulnerabilities found by Trivy scanner!</strong></p>\n      </div>\n    ")

end HtmlReport

namespace HtmlReport

/-- One SonarCloud issue record as it appears in any of the three sources
(each field may be missing on raw records). -/
structure Issue where
  file : Option String
  line : Option Int
  severity : Option String
  type : Option String
  message : Option String
  rule : Option String
  effort : Option String
  creation_date : Option String
  update_date : Option String
deriving Repr, DecidableEq

/-- One category block of `detailed_reports` (`by_file` index plus the
limited `issues` array). -/
structure CategoryReport where
  by_file : Option (List (String × List Issue))
  issues : Option (List Issue)
deriving Repr, DecidableEq

structure DetailedReports where
  bugs : Option CategoryReport
  vulnerabilities : Option CategoryReport
  code_smells : Option CategoryReport
deriving Repr, DecidableEq

/-- One entry of `files_affected.most_affected_files`. -/
structure FileAffected where
  file : Option String
  issues : Option (List Issue)
deriving Repr, DecidableEq

structure FilesAffected where
  most_affected_files : Option (List FileAffected)
deriving Repr, DecidableEq

structure SonarSummary where
  bugs : Option String
  vulnerabilities : Option String
  code_smells : Option String
  coverage : Option String
  sonar_project_url : Option String
deriving Repr, DecidableEq

structure SonarData where
  summary : SonarSummary
  detailed_reports : Option DetailedReports
  files_affected : Option FilesAffected
  total_issues : Option Int
deriving Repr, DecidableEq

/-- The `fullIssue` built from one `by_file` record. -/
def fullIssueOf (filename : String) (issue : Issue) : Issue :=
  { file := some filename
    line := some (jsOrInt issue.line 1)
    severity := some (jsOrStr issue.severity "UNKNOWN")
    type := some (jsOrStr issue.type "UNKNOWN")
    message := some (jsOrStr issue.message "No message available")
    rule := some (jsOrStr issue.rule "Unknown")
    effort := some (jsOrStr issue.effort "Unknown")
    creation_date := issue.creation_date
    update_date := issue.update_date }

/-- All issues of one category's `by_file` index, in file order. -/
def issuesFromByFile (cr : Option CategoryReport) : List Issue :=
  match cr with
  | some r =>
    match r.by_file with
    | some bf => bf.flatMap fun p => p.2.map (fullIssueOf p.1)
    | none => []
  | none => []

/-- The fallback to the limited `issues` array when the `by_file` extraction
is empty. -/
def withFallback (primary : List Issue) (cr : Option CategoryReport) : List Issue :=
  if primary.isEmpty then
    match cr with
    | some r =>
      match r.issues with
      | some is => is
      | none => primary
    | none => primary
  else primary

/-- The three per-category issue lists (insertion order of the source
object: vulnerabilities, bugs, code smells). -/
structure AllIssues where
  vulnerabilities : List Issue
  bugs : List Issue
  code_smells : List Issue
deriving Repr, DecidableEq

/-- The de-duplication key `` `${file}:${line}:${type}:${message}` ``. -/
def issueKey (i : Issue) : String :=
  jsShowOptStr i.file ++ ":" ++ jsShowOptInt i.line ++ ":" ++
  jsShowOptStr i.type ++ ":" ++ jsShowOptStr i.message

/-- The issue converted from a `most_affected_files` record. -/
def convertedIssueOf (file : Option String) (issue : Issue) : Issue :=
  { file := file
    line := issue.line
    severity := issue.severity
    type := issue.type
    message := issue.message
    rule := some (jsOrStr issue.rule "Unknown")
    effort := some (jsOrStr issue.effort "Unknown")
    creation_date := issue.creation_date
    update_date := none }

/-- Push a converted issue onto the category matching its `type`. -/
def pushByType (acc : AllIssues) (conv : Issue) : AllIssues :=
  if conv.type = some "BUG" then { acc with bugs := acc.bugs ++ [conv] }
  else if conv.type = some "VULNERABILITY" then
    { acc with vulnerabilities := acc.vulnerabilities ++ [conv] }
  else if conv.type = some "CODE_SMELL" then
    { acc with code_smells := acc.code_smells ++ [conv] }
  else acc

/-- Inner loop over one `most_affected_files` record: add each issue whose
key is not in `seen` (the key is recorded even when the `type` matches no
category). -/
def addFileIssues (file : Option String) :
    List Issue → List String → AllIssues → (List String × AllIssues)
  | [], seen, acc => (seen, acc)
  | issue :: rest, seen, acc =>
    let k := jsShowOptStr file ++ ":" ++ jsShowOptInt issue.line ++ ":" ++
             jsShowOptStr issue.type ++ ":" ++ jsShowOptStr issue.message
    if seen.contains k then addFileIssues file rest seen acc
    else addFileIssues file rest (k :: seen) (pushByType acc (convertedIssueOf file issue))

/-- Outer loop over `most_affected_files`. -/
def addMostAffected : List FileAffected → List String → AllIssues → AllIssues
  | [], _, acc => acc
  | fd :: rest, seen, acc =>
    match fd.issues with
    | none => addMostAffected rest seen acc
    | some is =>
      let p := addFileIssues fd.file is seen acc
      addMostAffected rest p.1 p.2

/-- Flatten the three category lists (`Object.values(allIssues).flat()`
order). -/
def flatAll (a : AllIssues) : List Issue :=
  a.vulnerabilities ++ a.bugs ++ a.code_smells

/-- The primary issue lists: `by_file` extraction with the limited-array
fallback, per category. -/
def primaryIssues (dr : DetailedReports) : AllIssues :=
  { bugs := withFallback (issuesFromByFile dr.bugs) dr.bugs
    vulnerabilities := withFallback (issuesFromByFile dr.vulnerabilities) dr.vulnerabilities
    code_smells := withFallback (issuesFromByFile dr.code_smells) dr.code_smells }

/-- Issue collection of `generateSonarDetailedIssues`: `by_file` extraction,
fallback to the limited arrays, then the `most_affected_files` supplement
de-duplicated against the keys already present. -/
def collectAllIssues (dr : DetailedReports) (fa : Option FilesAffected) : AllIssues :=
  let primary : AllIssues := primaryIssues dr
  match fa with
  | some f =>
    match f.most_affected_files with
    | some files => addMostAffected files ((flatAll primary).map issueKey) primary
    | none => primary
  | none => primary

/-- `severityOrder[sev]` (BLOCKER 0, CRITICAL 1, MAJOR 2, MINOR 3, INFO 4). -/
def severityOrderLookup (sev : Option String) : Option Int :=
  match sev with
  | some "BLOCKER" => some 0
  | some "CRITICAL" => some 1
  | some "MAJOR" => some 2
  | some "MINOR" => some 3
  | some "INFO" => some 4
  | _ => none

/-- `severityOrder[a.severity] || 5`: note that BLOCKER's rank 0 is falsy in
JS, so `|| 5` turns it into 5. -/
def effectiveRank (i : Issue) : Int := jsOrInt (severityOrderLookup i.severity) 5

/-- The comparator of the issue sort as a `≤`-style predicate for the stable
sort: severity rank first, then `localeCompare` on the file. -/
def issueLe (a b : Issue) : Bool :=
  if effectiveRank a < effectiveRank b then true
  else if effectiveRank b < effectiveRank a then false
  else lexLe (jsShowOptStr a.file).data (jsShowOptStr b.file).data

/-- The comparator of the issue sort as a propositional preorder. -/
def issueOrder (a b : Issue) : Prop := issueLe a b = true

instance : DecidableRel issueOrder := fun a b => decEq _ _

/-- `[...issues].sort(...)` of `generateSonarDetailedIssues`. -/
def sortIssues (issues : List Issue) : List Issue :=
  List.insertionSort issueOrder issues

/-- The validity filter of the render loop (`!issue.file || !issue.message ||
!issue.severity` skips the issue). -/
def issueValid (i : Issue) : Bool :=
  truthyStr i.file && truthyStr i.message && truthyStr i.severity

/-- `severityColors[sev] || "#6c757d"` of `generateSonarDetailedIssues`. -/
def sonarSeverityColor (sev : Option String) : String :=
  jsOrStr
    (match sev with
     | some "BLOCKER" => some "#d73527"
     | some "CRITICAL" => some "#ff6b35"
     | some "MAJOR" => some "#ff9500"
     | some "MINOR" => some "#f7c52d"
     | some "INFO" => some "#28a745"
     | _ => none) "#6c757d"

/-- `severityIcons[sev] || "•"` of `generateSonarDetailedIssues`. -/
def sonarSeverityIcon (sev : Option String) : String :=
  jsOrStr
    (match sev with
     | some "BLOCKER" => some "🚨"
     | some "CRITICAL" => some "❌"
     | some "MAJOR" => some "⚠️"
     | some "MINOR" => some "💡"
     | some "INFO" => some "ℹ️"
     | _ => none) "•"

/-- `new Date(s).toLocaleDateString()`: locale/clock dependent, modelled as
identity on the stored date string. -/
def jsToLocaleDateString (s : String) : String := s

/-- One rendered issue item (the template applied after the validity
check). -/
def renderIssueItem (githubRepo : String) (issue : Issue) : String :=
  let githubLink := "https://github.com/" ++ githubRepo ++ "/blob/master/" ++
    jsShowOptStr issue.file ++ "#L" ++ toString (jsOrInt issue.line 1)
  let severityColor := sonarSeverityColor issue.severity
  let severityIcon := sonarSeverityIcon issue.severity
  let safeFile := escapeHtml (jsOrStr issue.file "Unknown file")
  let safeLine := jsOrInt issue.line 1
  let safeSeverity := jsOrStr issue.severity "UNKNOWN"
  let safeMessage := escapeHtml (jsOrStr issue.message "No description available")
  let safeRule := escapeHtml (jsOrStr issue.rule "Unknown rule")
  let safeEffort := escapeHtml (jsOrStr issue.effort "Unknown effort")
  "\n        <div class=\"issue-item\">\n          <div class=\"issue-header\">\n            <span class=\"severity-badge\" style=\"background-color: " ++
  severityColor ++
  "\">\n              " ++
  severityIcon ++ " " ++ safeSeverity ++
  "\n            </span>\n            <a href=\"" ++
  githubLink ++
  "\" target=\"_blank\" class=\"file-link\">\n              📁 " ++
  safeFile ++ ":" ++ toString safeLine ++
  "\n            </a>\n          </div>\n          <div class=\"issue-message\">" ++
  safeMessage ++
  "</div>\n          <div class=\"issue-meta\">\n            <span class=\"rule-tag\">Rule: " ++
  safeRule ++
  "</span>\n            <span class=\"effort-tag\">Effort: " ++
  safeEffort ++
  "</span>\n            " ++
  (if truthyStr issue.creation_date then
     "<span class=\"date-tag\">Created: " ++
     jsToLocaleDateString (jsShowOptStr issue.creation_date) ++ "</span>"
   else "") ++
  "\n          </div>\n        </div>\n      "

/-- One issue-type section (vulnerabilities / bugs / code smells): header,
sorted list with the validity filter, closing markup. Empty categories are
skipped. -/
def renderIssueSection (githubRepo typeIcon typeLabel : String)
    (issues : List Issue) : String :=
  if issues.isEmpty then ""
  else
    "\n      <div class=\"issue-type-section\">\n        <h5>" ++
    typeIcon ++ " " ++ typeLabel ++ " (" ++ toString issues.length ++
    ")</h5>\n        <div class=\"issues-list\">\n    " ++
    String.join (((sortIssues issues).filter issueValid).map (renderIssueItem githubRepo)) ++
    "\n        </div>\n      </div>\n    "

/-- `parseInt(field || 0)`: an absent field becomes the number `0` before
`parseInt`; a non-numeric string gives `NaN`, modelled as `none`. -/
def parseIntNaN (o : Option String) : Option Int :=
  match o with
  | some str => parseIntJs str
  | none => some 0

/-- Sum of the three `parseInt`ed summary counts; any `NaN` summand makes the
whole sum `NaN` (`none`). -/
def summaryIssueSum (s : SonarSummary) : Option Int :=
  match parseIntNaN s.bugs, parseIntNaN s.vulnerabilities, parseIntNaN s.code_smells with
  | some b, some v, some c => some (b + v + c)
  | _, _, _ => none

/-- `sonarData.total_issues || (summary ? parseInt(bugs||0)+... : 0)`; `none`
models `NaN`. -/
def totalSonarIssuesOf (sonarData : SonarData) : Option Int :=
  match sonarData.total_issues with
  | some n => if n = 0 then summaryIssueSum sonarData.summary else some n
  | none => summaryIssueSum sonarData.summary

/-- JS interpolation of a possibly-`NaN` number. -/
def nanShow (o : Option Int) : String :=
  match o with
  | some n => toString n
  | none => "NaN"

/-- `actualTotalIssues !== totalSonarIssues` (`NaN` compares unequal to
everything). -/
def neqNaN (a : Int) (b : Option Int) : Bool :=
  match b with
  | some n => a ≠ n
  | none => true

end HtmlReport

namespace HtmlReport

/-- `generateSonarDetailedIssues`: collect, sort, render the three issue-type
sections in priority order, then the accounting summary. -/
def generateSonarDetailedIssues (sonarData : Option SonarData)
    (githubRepo : String) : String :=
  match sonarData with
  | none => ""
  | some sd =>
    match sd.detailed_reports with
    | none => ""
    | some dr =>
      let allIssues := collectAllIssues dr sd.files_affected
      let actualTotalIssues : Int :=
        allIssues.bugs.length + allIssues.vulnerabilities.length +
        allIssues.code_smells.length
      let totalSonarIssues := totalSonarIssuesOf sd
      "\n    <div class=\"detailed-issues\">\n      <h4>🔍 Detailed SonarCloud Issues</h4>\n  " ++
      renderIssueSection githubRepo "🔓" "Security Vulnerabilities" allIssues.vulnerabilities ++
      renderIssueSection githubRepo "🐛" "Bugs" allIssues.bugs ++
      renderIssueSection githubRepo "💭" "Code Smells" allIssues.code_smells ++
      "\n    <div class=\"issues-summary\">\n      <p><strong>📊 Total Issues Found: " ++
      toString actualTotalIssues ++
      "</strong></p>\n      " ++
      (if neqNaN actualTotalIssues totalSonarIssues then
        "<p><strong>🔍 SonarCloud API Total: " ++ nanShow totalSonarIssues ++
        " issues</strong></p>\n         <p><em>Note: Extracted " ++ toString actualTotalIssues ++
        " detailed issues from SonarCloud data structure.</em></p>"
      else
        "<p><em>✅ Successfully extracted and categorized all " ++ toString actualTotalIssues ++
        " SonarCloud issues with direct links to GitHub for easy navigation.</em></p>") ++
      "\n      <p><em>📋 All " ++ toString actualTotalIssues ++
      " issues are displayed below with direct GitHub links for easy navigation.</em></p>\n    </div>\n  " ++
      "\n    </div>\n  "

/-- `generateSonarDetails`. -/
def generateSonarDetails (sonarData : Option SonarData)
    (githubRepo : String := "CoTuring/NodeGoat") : String :=
  match sonarData with
  | none => "<p>No SonarCloud data available</p>"
  | some sd =>
    let bugs := parseIntOr0 sd.summary.bugs
    let vulnerabilities := parseIntOr0 sd.summary.vulnerabilities
    let codeSmells := parseIntOr0 sd.summary.code_smells
    "\n    <div class=\"sonar-metrics\">\n      <div class=\"metric-card\">\n        <div class=\"metric-icon\">🐛</div>\n        <div class=\"metric-value\">" ++
    toString bugs ++
    "</div>\n        <div class=\"metric-label\">Bugs</div>\n      </div>\n      <div class=\"metric-card\">\n        <div class=\"metric-icon\">⚠️</div>\n        <div class=\"metric-value\">" ++
    toString vulnerabilities ++
    "</div>\n        <div class=\"metric-label\">Vulnerabilities</div>\n      </div>\n      <div class=\"metric-card\">\n        <div class=\"metric-icon\">💭</div>\n        <div class=\"metric-value\">" ++
    toString codeSmells ++
    "</div>\n        <div class=\"metric-label\">Code Smells</div>\n      </div>\n      <div class=\"metric-card\">\n        <div class=\"metric-icon\">📊</div>\n        <div class=\"metric-value\">" ++
    coverageFixed1 sd.summary.coverage ++
    "%</div>\n        <div class=\"metric-label\">Coverage</div>\n      </div>\n    </div>\n    <div class=\"sonar-link\">\n      <a href=\"" ++
    jsShowOptStr sd.summary.sonar_project_url ++
    "\" target=\"_blank\">View in SonarCloud 🔗</a>\n    </div>\n  " ++
    (match sd.detailed_reports with
     | some _ => generateSonarDetailedIssues (some sd) githubRepo
     | none => "")

/-- `team-analysis.json`: the fields read by the renderer. -/
structure TeamSummary where
  totalCommits : Option Int
  totalAuthors : Option Int
  messageQuality : Option Int
deriving Repr, DecidableEq

structure TeamBreakdownItem where
  score : Option Int
  maxScore : Option Int
  description : Option String
deriving Repr, DecidableEq

structure TeamData where
  summary : TeamSummary
  breakdown : Option (List (String × TeamBreakdownItem))
deriving Repr, DecidableEq

/-- `key.replace(/([A-Z])/g, " $1")`. -/
def spaceBeforeCaps (s : String) : String :=
  String.mk (s.data.flatMap fun c => if c.isUpper then [' ', c] else [c])

/-- `.replace(/^./, (str) => str.toUpperCase())`. -/
def capFirst (s : String) : String :=
  match s.data with
  | [] => s
  | c :: cs => String.mk (c.toUpper :: cs)

/-- `generateTeamDetails`. -/
def generateTeamDetails (teamData : Option TeamData) : String :=
  match teamData with
  | none => "<p>No team data available</p>"
  | some td =>
    "\n    <div class=\"team-metrics\">\n      <div class=\"team-stat\">\n        <div class=\"stat-icon\">📊</div>\n        <div class=\"stat-content\">\n          <div class=\"stat-value\">" ++
    toString (jsOrInt td.summary.totalCommits 0) ++
    "</div>\n          <div class=\"stat-label\">Total Commits</div>\n        </div>\n      </div>\n      <div class=\"team-stat\">\n        <div class=\"stat-icon\">👥</div>\n        <div class=\"stat-content\">\n          <div class=\"stat-value\">" ++
    toString (jsOrInt td.summary.totalAuthors 0) ++
    "</div>\n          <div class=\"stat-label\">Contributors</div>\n        </div>\n      </div>\n      <div class=\"team-stat\">\n        <div class=\"stat-icon\">💬</div>\n        <div class=\"stat-content\">\n          <div class=\"stat-value\">" ++
    toString (jsOrInt td.summary.messageQuality 0) ++
    "%</div>\n          <div class=\"stat-label\">Message Quality</div>\n        </div>\n      </div>\n    </div>\n    \n    <div class=\"team-breakdown\">\n      <h4>Detailed Breakdown:</h4>\n      " ++
    String.join ((td.breakdown.getD []).map fun p =>
      "\n        <div class=\"breakdown-item\">\n          <span class=\"breakdown-label\">" ++
      capFirst (spaceBeforeCaps p.1) ++
      ":</span>\n          <span class=\"breakdown-score\">" ++
      jsShowOptInt p.2.score ++ "/" ++ jsShowOptInt p.2.maxScore ++
      "</span>\n          <span class=\"breakdown-desc\">" ++
      jsShowOptStr p.2.description ++
      "</span>\n        </div>\n      ") ++
    "\n    </div>\n  "

/-- `ai-analysis.json`: the fields read by the renderer. -/
structure AISummary where
  hasAttribution : Bool
  estimatedAiPercentage : Option Int
  aiCommits : Option Int
deriving Repr, DecidableEq

structure AIPatterns where
  totalCodeFiles : Option Int
deriving Repr, DecidableEq

structure AIData where
  summary : AISummary
  recommendations : Option (List String)
  patterns : Option AIPatterns
deriving Repr, DecidableEq

/-- `generateAIDetails`; note that the recommendation strings are
interpolated without any escaping. -/
def generateAIDetails (aiData : Option AIData) : String :=
  match aiData with
  | none => "<p>No AI analysis data available</p>"
  | some ad =>
    "\n    <div class=\"ai-metrics\">\n      <div class=\"ai-score " ++
    (if ad.summary.hasAttribution then "ai-good" else "ai-warning") ++
    "\">\n        <div class=\"ai-icon\">" ++
    (if ad.summary.hasAttribution then "✅" else "⚠️") ++
    "</div>\n        <div class=\"ai-content\">\n          <div class=\"ai-title\">AI Attribution</div>\n          <div class=\"ai-status\">" ++
    (if ad.summary.hasAttribution then "Properly Attributed" else "Missing Attribution") ++
    "</div>\n        </div>\n      </div>\n      \n      <div class=\"ai-stats\">\n        <div class=\"ai-stat\">\n          <span class=\"ai-stat-label\">Estimated AI Usage:</span>\n          <span class=\"ai-stat-value\">" ++
    toString (jsOrInt ad.summary.estimatedAiPercentage 0) ++
    "%</span>\n        </div>\n        <div class=\"ai-stat\">\n          <span class=\"ai-stat-label\">AI-related Commits:</span>\n          <span class=\"ai-stat-value\">" ++
    toString (jsOrInt ad.summary.aiCommits 0) ++
    "</span>\n        </div>\n        <div class=\"ai-stat\">\n          <span class=\"ai-stat-label\">Code Files Analyzed:</span>\n          <span class=\"ai-stat-value\">" ++
    toString (jsOrInt (ad.patterns.bind AIPatterns.totalCodeFiles) 0) ++
    "</span>\n        </div>\n      </div>\n    </div>\n    \n    <div class=\"ai-recommendations\">\n      <h4>Recommendations:</h4>\n      <ul>\n        " ++
    String.join ((ad.recommendations.getD []).map fun rec =>
      "<li>" ++ rec ++ "</li>") ++
    "\n      </ul>\n    </div>\n  "

end HtmlReport

namespace HtmlReport

/-- `new Date(ts).toLocaleString()`: locale dependent, modelled as identity. -/
def jsToLocaleString (s : String) : String := s

/-- The `reportData` record handed to `generateHTML` (`coverageData` is only
ever tested for truthiness, so it is modelled as `Option Unit`; the loaded
JSON files are `none` when absent or unreadable). -/
structure ReportData where
  scoreData : Option ScoreData
  securityData : Option SecurityData
  sonarData : Option SonarData
  teamData : Option TeamData
  aiData : Option AIData
  coverageData : Option Unit
  trivyData : Option (List TrivyTarget)
  prNumber : Option String
  githubRepo : String := "CoTuring/NodeGoat"

/-- `generateHTML`: the full self-contained per-team report document. The
`timestamp` parameter models the `new Date().toISOString()` clock reading
taken inside the function. -/
def generateHTML (teamName : String) (reportData : ReportData)
    (timestamp : String) : String :=
  let scoreData := reportData.scoreData
  let securityData := reportData.securityData
  let sonarData := reportData.sonarData
  let teamData := reportData.teamData
  let aiData := reportData.aiData
  let trivyData := reportData.trivyData
  let githubRepo := reportData.githubRepo
  let overallScore : Int := jsOrInt (scoreData.bind ScoreData.overall_score) 0
  let grade := (getScoreGrade overallScore).grade
  let color := (getScoreGrade overallScore).color
  let description := (getScoreGrade overallScore).description
  "\n<!DOCTYPE html>\n<html lang=\"en\">\n<head>\n    <meta charset=\"UTF-8\">\n    <meta name=\"viewport\" content=\"width=device-width, initial-scale=1.0\">\n    <title>Hackathon Judge Report - " ++
  (teamName) ++
  "</title>\n    <style>\n        * \x7b margin: 0; padding: 0; box-sizing: border-box; \x7d\n        \n        body \x7b\n            font-family: \x27Segoe UI\x27, Tahoma, Geneva, Verdana, sans-serif;\n            background: linear-gradient(135deg, #667eea 0%, #764ba2 100%);\n            min-height: 100vh;\n            padding: 20px;\n            color: #333;\n        \x7d\n        \n        .container \x7b\n            max-width: 1200px;\n            margin: 0 auto;\n            background: white;\n            border-radius: 20px;\n            box-shadow: 0 20px 40px rgba(0,0,0,0.1);\n            overflow: hidden;\n        \x7d\n        \n        .header \x7b\n            background: linear-gradient(135deg, #2c3e50 0%, #34495e 100%);\n            color: white;\n            padding: 30px;\n            text-align: center;\n        \x7d\n        \n        .header h1 \x7b\n            font-size: 2.5rem;\n            margin-bottom: 10px;\n            text-shadow: 2px 2px 4px rgba(0,0,0,0.3);\n        \x7d\n        \n        .header .subtitle \x7b\n            font-size: 1.2rem;\n            opacity: 0.9;\n        \x7d\n        \n        .overall-score \x7b\n            background: linear-gradient(135deg, #f093fb 0%, #f5576c 100%);\n            color: white;\n            padding: 40px;\n            text-align: center;\n        \x7d\n        \n        .score-circle \x7b\n            width: 150px;\n            height: 150px;\n            border-radius: 50%;\n            background: " ++
  (color) ++
  ";\n            display: flex;\n            align-items: center;\n            justify-content: center;\n            margin: 0 auto 20px;\n            box-shadow: 0 10px 30px rgba(0,0,0,0.2);\n            animation: pulse 2s infinite;\n        \x7d\n        \n        @keyframes pulse \x7b\n            0% \x7b transform: scale(1); \x7d\n            50% \x7b transform: scale(1.05); \x7d\n            100% \x7b transform: scale(1); \x7d\n        \x7d\n        \n        .score-circle .score \x7b\n            font-size: 3rem;\n            font-weight: bold;\n        \x7d\n        \n        .grade-info \x7b\n            font-size: 1.5rem;\n            margin-bottom: 10px;\n        \x7d\n        \n        .main-content \x7b\n            padding: 40px;\n            display: grid;\n            grid-template-columns: repeat(auto-fit, minmax(400px, 1fr));\n            gap: 30px;\n        \x7d\n        \n        .section \x7b\n            background: #f8f9fa;\n            border-radius: 15px;\n            padding: 30px;\n            box-shadow: 0 5px 15px rgba(0,0,0,0.08);\n            transition: transform 0.3s ease;\n        \x7d\n        \n        .section:hover \x7b\n            transform: translateY(-5px);\n        \x7d\n        \n        .section h2 \x7b\n            color: #2c3e50;\n            margin-bottom: 20px;\n            font-size: 1.5rem;\n            border-bottom: 3px solid #3498db;\n            padding-bottom: 10px;\n        \x7d\n        \n        .score-item \x7b\n            margin-bottom: 20px;\n            background: white;\n            border-radius: 10px;\n            padding: 15px;\n        \x7d\n        \n        .score-header \x7b\n            display: flex;\n            align-items: center;\n            margin-bottom: 10px;\n        \x7d\n        \n        .score-icon \x7b\n            font-size: 1.5rem;\n            margin-right: 10px;\n        \x7d\n        \n        .score-label \x7b\n            flex: 1;\n            font-weight: 600;\n        \x7d\n        \n        .score-weight \x7b\n            color: #666;\n            font-size: 0.9rem;\n        \x7d\n        \n        .score-bar \x7b\n            height: 8px;\n            background: #e0e0e0;\n            border-radius: 4px;\n            overflow: hidden;\n            margin-bottom: 5px;\n        \x7d\n        \n        .score-fill \x7b\n            height: 100%;\n            border-radius: 4px;\n            transition: width 1s ease-in-out;\n        \x7d\n        \n        .score-value \x7b\n            text-align: right;\n            font-weight: bold;\n            color: #2c3e50;\n        \x7d\n        \n        .security-success \x7b\n            text-align: center;\n            color: #27ae60;\n        \x7d\n        \n        .success-icon \x7b\n            font-size: 4rem;\n            margin-bottom: 20px;\n        \x7d\n        \n        .score-display \x7b\n            font-size: 1.5rem;\n            font-weight: bold;\n            margin-top: 15px;\n        \x7d\n        \n        .sonar-metrics \x7b\n            display: grid;\n            grid-template-columns: repeat(auto-fit, minmax(100px, 1fr));\n            gap: 15px;\n            margin-bottom: 20px;\n        \x7d\n        \n        .metric-card \x7b\n            background: white;\n            border-radius: 10px;\n            padding: 20px;\n            text-align: center;\n            box-shadow: 0 2px 8px rgba(0,0,0,0.1);\n        \x7d\n        \n        .metric-icon \x7b\n            font-size: 2rem;\n            margin-bottom: 10px;\n        \x7d\n        \n        .metric-value \x7b\n            font-size: 1.5rem;\n            font-weight: bold;\n            color: #2c3e50;\n            margin-bottom: 5px;\n        \x7d\n        \n        .metric-label \x7b\n            color: #666;\n            font-size: 0.9rem;\n        \x7d\n        \n        .sonar-link \x7b\n            text-align: center;\n            margin-top: 20px;\n        \x7d\n        \n        .sonar-link a \x7b\n            color: #3498db;\n            text-decoration: none;\n            font-weight: 600;\n            transition: color 0.3s ease;\n        \x7d\n        \n        .sonar-link a:hover \x7b\n            color: #2980b9;\n        \x7d\n        \n        .team-metrics \x7b\n            display: grid;\n            grid-template-columns: repeat(auto-fit, minmax(150px, 1fr));\n            gap: 20px;\n            margin-bottom: 30px;\n        \x7d\n        \n        .team-stat \x7b\n            background: white;\n            border-radius: 10px;\n            padding: 20px;\n            display: flex;\n            align-items: center;\n            box-shadow: 0 2px 8px rgba(0,0,0,0.1);\n        \x7d\n        \n        .stat-icon \x7b\n            font-size: 2rem;\n            margin-right: 15px;\n        \x7d\n        \n        .stat-value \x7b\n            font-size: 1.8rem;\n            font-weight: bold;\n            color: #2c3e50;\n        \x7d\n        \n        .stat-label \x7b\n            color: #666;\n            font-size: 0.9rem;\n        \x7d\n        \n        .team-breakdown \x7b\n            background: white;\n            border-radius: 10px;\n            padding: 20px;\n        \x7d\n        \n        .breakdown-item \x7b\n            display: flex;\n            align-items: center;\n            padding: 10px 0;\n            border-bottom: 1px solid #eee;\n        \x7d\n        \n        .breakdown-item:last-child \x7b\n            border-bottom: none;\n        \x7d\n        \n        .breakdown-label \x7b\n            flex: 1;\n            font-weight: 600;\n        \x7d\n        \n        .breakdown-score \x7b\n            margin: 0 15px;\n            font-weight: bold;\n            color: #3498db;\n        \x7d\n        \n        .breakdown-desc \x7b\n            color: #666;\n            font-size: 0.9rem;\n        \x7d\n        \n        .ai-metrics \x7b\n            background: white;\n            border-radius: 10px;\n            padding: 20px;\n            margin-bottom: 20px;\n        \x7d\n        \n        .ai-score \x7b\n            display: flex;\n            align-items: center;\n            margin-bottom: 20px;\n            padding: 15px;\n            border-radius: 8px;\n        \x7d\n        \n        .ai-good \x7b\n            background: #d4edda;\n            color: #155724;\n        \x7d\n        \n        .ai-warning \x7b\n            background: #fff3cd;\n            color: #856404;\n        \x7d\n        \n        .ai-icon \x7b\n            font-size: 2rem;\n            margin-right: 15px;\n        \x7d\n        \n        .ai-title \x7b\n            font-weight: bold;\n            font-size: 1.2rem;\n        \x7d\n        \n        .ai-stats \x7b\n            display: grid;\n            gap: 10px;\n        \x7d\n        \n        .ai-stat \x7b\n            display: flex;\n            justify-content: space-between;\n            padding: 8px 0;\n            border-bottom: 1px solid #eee;\n        \x7d\n        \n        .ai-stat:last-child \x7b\n            border-bottom: none;\n        \x7d\n        \n        .ai-stat-label \x7b\n            color: #666;\n        \x7d\n        \n        .ai-stat-value \x7b\n            font-weight: bold;\n            color: #2c3e50;\n        \x7d\n        \n        .ai-recommendations \x7b\n            background: white;\n            border-radius: 10px;\n            padding: 20px;\n        \x7d\n        \n        .ai-recommendations ul \x7b\n            padding-left: 20px;\n        \x7d\n        \n        .ai-recommendations li \x7b\n            margin-bottom: 8px;\n            color: #2c3e50;\n        \x7d\n        \n        .footer \x7b\n            background: #2c3e50;\n            color: white;\n            padding: 20px;\n            text-align: center;\n            font-size: 0.9rem;\n            opacity: 0.8;\n        \x7d\n        \n        .timestamp \x7b\n            margin-top: 10px;\n            font-size: 0.8rem;\n        \x7d\n        \n        @media (max-width: 768px) \x7b\n            .main-content \x7b\n                grid-template-columns: 1fr;\n                padding: 20px;\n            \x7d\n            \n            .header h1 \x7b\n                font-size: 2rem;\n            \x7d\n            \n            .score-circle \x7b\n                width: 120px;\n                height: 120px;\n            \x7d\n              .score-circle .score \x7b\n                font-size: 2.5rem;\n            \x7d\n        \x7d\n        \n        /* Detailed Issues Styles */\n        .detailed-issues \x7b\n            margin-top: 30px;\n        \x7d\n        \n        .issue-type-section \x7b\n            margin-bottom: 30px;\n        \x7d\n        \n        .issue-type-section h5 \x7b\n            color: #2c3e50;\n            margin-bottom: 15px;\n            padding-bottom: 8px;\n            border-bottom: 2px solid #e0e0e0;\n        \x7d\n        \n        .issues-list \x7b\n            display: grid;\n            gap: 15px;\n        \x7d\n        \n        .issue-item \x7b\n            background: white;\n            border-radius: 8px;\n            padding: 15px;\n            border-left: 4px solid #3498db;\n            box-shadow: 0 2px 8px rgba(0,0,0,0.1);\n            transition: transform 0.2s ease;\n        \x7d\n        \n        .issue-item:hover \x7b\n            transform: translateY(-2px);\n        \x7d\n        \n        .issue-header \x7b\n            display: flex;\n            align-items: center;\n            gap: 10px;\n            margin-bottom: 10px;\n        \x7d\n        \n        .severity-badge \x7b\n            padding: 4px 8px;\n            border-radius: 4px;\n            color: white;\n            font-size: 0.8rem;\n            font-weight: bold;\n            text-shadow: 1px 1px 1px rgba(0,0,0,0.3);\n        \x7d\n        \n        .file-link \x7b\n            color: #3498db;\n            text-decoration: none;\n            font-family: monospace;\n            font-size: 0.9rem;\n        \x7d\n        \n        .file-link:hover \x7b\n            text-decoration: underline;\n        \x7d\n        \n        .issue-message \x7b\n            color: #2c3e50;\n            margin-bottom: 10px;\n            font-weight: 500;\n        \x7d\n        \n        .issue-meta \x7b\n            display: flex;\n            gap: 15px;\n            font-size: 0.8rem;\n        \x7d\n          .rule-tag, .effort-tag, .date-tag \x7b\n            background: #f8f9fa;\n            padding: 2px 6px;\n            border-radius: 3px;\n            color: #666;\n        \x7d\n        \n        .issues-summary \x7b\n            background: linear-gradient(135deg, #e3f2fd 0%, #bbdefb 100%);\n            padding: 15px;\n            border-radius: 8px;\n            margin-top: 20px;\n            text-align: center;\n        \x7d\n        \n        /* Trivy Security Vulnerabilities Styles */\n        .trivy-details \x7b\n            margin-top: 30px;\n        \x7d\n        \n        .trivy-target \x7b\n            margin-bottom: 25px;\n        \x7d\n        \n        .trivy-target h5 \x7b\n            color: #2c3e50;\n            margin-bottom: 15px;\n            padding: 10px;\n            background: linear-gradient(135deg, #f8f9fa 0%, #e9ecef 100%);\n            border-radius: 6px;\n        \x7d\n        \n        .vulnerabilities-list \x7b\n            display: grid;\n            gap: 15px;\n        \x7d\n        \n        .vulnerability-item \x7b\n            background: white;\n            border-radius: 8px;\n            padding: 15px;\n            border-left: 4px solid #dc3545;\n            box-shadow: 0 2px 8px rgba(0,0,0,0.1);\n            transition: transform 0.2s ease;\n        \x7d\n        \n        .vulnerability-item:hover \x7b\n            transform: translateY(-2px);\n        \x7d\n        \n        .vuln-header \x7b\n            display: flex;\n            align-items: center;\n            gap: 10px;\n            margin-bottom: 10px;\n            flex-wrap: wrap;\n        \x7d\n        \n        .vuln-id \x7b\n            font-family: monospace;\n            background: #f8f9fa;\n            padding: 2px 6px;\n            border-radius: 3px;\n            font-weight: bold;\n        \x7d\n        \n        .cvss-score \x7b\n            background: #ffc107;\n            color: #212529;\n            padding: 2px 6px;\n            border-radius: 3px;\n            font-size: 0.8rem;\n            font-weight: bold;\n        \x7d\n        \n        .vuln-package \x7b\n            color: #495057;\n            margin-bottom: 8px;\n            font-family: monospace;\n            font-size: 0.9rem;\n        \x7d\n        \n        .vuln-title \x7b\n            color: #2c3e50;\n            font-weight: 600;\n            margin-bottom: 8px;\n        \x7d\n        \n        .vuln-description \x7b\n            color: #666;\n            margin-bottom: 10px;\n            line-height: 1.4;\n        \x7d\n        \n        .vuln-links \x7b\n            display: flex;\n            gap: 10px;\n            flex-wrap: wrap;\n        \x7d\n        \n        .ref-link \x7b\n            color: #3498db;\n            text-decoration: none;\n            font-size: 0.8rem;\n            padding: 2px 6px;\n            border: 1px solid #3498db;\n            border-radius: 3px;\n            transition: background-color 0.2s ease;\n        \x7d\n        \n        .ref-link:hover \x7b\n            background-color: #3498db;\n            color: white;\n        \x7d\n    </style>\n</head>\n<body>\n    <div class=\"container\">\n        <header class=\"header\">\n            <h1>🏆 Hackathon Judge Report</h1>\n            <div class=\"subtitle\">Team: " ++
  (teamName) ++
  " | PR #" ++
  (jsOrStr reportData.prNumber "N/A") ++
  "</div>\n        </header>\n        \n        <section class=\"overall-score\">\n            <div class=\"score-circle\">\n                <div class=\"score\">" ++
  (toString overallScore) ++
  "</div>\n            </div>\n            <div class=\"grade-info\">Grade: " ++
  (grade) ++
  " - " ++
  (description) ++
  "</div>\n            <div>Overall Score: " ++
  (toString overallScore) ++
  "/100</div>\n        </section>        <main class=\"main-content\">\n            <section class=\"section\">\n                " ++
  "<h2>📊 Score Breakdown</h2>" ++
  "\n                " ++
  (generateScoreChart ((scoreData.bind ScoreData.component_scores).getD CompScores.empty) ((scoreData.bind ScoreData.weights).getD WeightsObj.empty)) ++
  "\n            </section>\n            \n            <section class=\"section\">\n                " ++
  "<h2>⚡ Code Quality & Issues (SonarCloud)</h2>" ++
  "\n                " ++
  (generateSonarDetails sonarData githubRepo) ++
  "\n            </section>\n            \n            <section class=\"section\">\n                " ++
  "<h2>🔒 Security Analysis & Vulnerabilities</h2>" ++
  "\n                " ++
  (generateSecurityDetails securityData trivyData) ++
  "\n            </section>\n            \n            <section class=\"section\">\n                " ++
  "<h2>👥 Team Collaboration</h2>" ++
  "\n                " ++
  (generateTeamDetails teamData) ++
  "\n            </section>\n            \n            <section class=\"section\">\n                " ++
  "<h2>🤖 AI Attribution Analysis</h2>" ++
  "\n                " ++
  (generateAIDetails aiData) ++
  "\n            </section>\n            \n            <section class=\"section\">\n                " ++
  "<h2>🧪 Test Coverage</h2>" ++
  "\n                " ++
  ((match reportData.coverageData with
   | some _ => "\n                  <div class=\"coverage-info\">\n                    <p>Coverage data available - see detailed analysis for metrics.</p>\n                  </div>\n                "
   | none => "<p>No coverage data available</p>")) ++
  "\n            </section>\n        </main>\n        \n        <footer class=\"footer\">\n            <div>Generated by Hackathon Judge System</div>\n            <div class=\"timestamp\">Report generated: " ++
  (jsToLocaleString timestamp) ++
  "</div>\n        </footer>\n    </div>\n    \n    <script>\n        // Add some interactivity\n        document.addEventListener(\x27DOMContentLoaded\x27, function() \x7b\n            // Animate score bars\n            const scoreBars = document.querySelectorAll(\x27.score-fill\x27);\n            scoreBars.forEach(bar => \x7b\n                const width = bar.style.width;\n                bar.style.width = \x270%\x27;\n                setTimeout(() => \x7b\n                    bar.style.width = width;\n                \x7d, 500);\n            \x7d);\n            \n            // Add click effects to sections\n            document.querySelectorAll(\x27.section\x27).forEach(section => \x7b\n                section.addEventListener(\x27click\x27, function() \x7b\n                    this.style.transform = \x27scale(1.02)\x27;\n                    setTimeout(() => \x7b\n                        this.style.transform = \x27translateY(-5px)\x27;\n                    \x7d, 150);\n                \x7d);\n            \x7d);\n        \x7d);\n    </script>\n</body>\n</html>\n  "

end HtmlReport

/-! ## `generate-teams-index.js` (the cross-team index page) -/

namespace IndexPage

/-- Result of the index page's `getScoreGrade` (a third, finer scale). -/
structure GradeStyle where
  grade : String
  color : String
  bgColor : String
deriving Repr, DecidableEq

/-- The index page's own grade step function. -/
def getScoreGrade (score : Int) : GradeStyle :=
  if score ≥ 90 then { grade := "A+", color := "#4CAF50", bgColor := "#E8F5E8" }
  else if score ≥ 85 then { grade := "A", color := "#4CAF50", bgColor := "#E8F5E8" }
  else if score ≥ 80 then { grade := "A-", color := "#8BC34A", bgColor := "#F1F8E9" }
  else if score ≥ 75 then { grade := "B+", color := "#CDDC39", bgColor := "#F9FBE7" }
  else if score ≥ 70 then { grade := "B", color := "#CDDC39", bgColor := "#F9FBE7" }
  else if score ≥ 65 then { grade := "B-", color := "#FFEB3B", bgColor := "#FFFDE7" }
  else if score ≥ 60 then { grade := "C+", color := "#FFC107", bgColor := "#FFF8E1" }
  else if score ≥ 55 then { grade := "C", color := "#FF9800", bgColor := "#FFF3E0" }
  else if score ≥ 50 then { grade := "C-", color := "#FF5722", bgColor := "#FBE9E7" }
  else { grade := "F", color := "#F44336", bgColor := "#FFEBEE" }

end IndexPage

/-! ## A JSON value model and `JSON.parse` -/

/-- JSON values. Numbers keep their source lexeme: none of the verified
claims depends on numeric value arithmetic, only on parse success/failure
and on string display. -/
inductive Json where
  | null : Json
  | bool : Bool → Json
  | num : String → Json
  | str : String → Json
  | arr : List Json → Json
  | obj : List (String × Json) → Json

/-- JSON whitespace (space, tab, newline, carriage return). -/
def skipWs (l : List Char) : List Char :=
  l.dropWhile (fun c => c = ' ' || c = '\t' || c = '\n' || c = '\r')

def hexVal (c : Char) : Option Nat :=
  if '0' ≤ c ∧ c ≤ '9' then some (c.toNat - '0'.toNat)
  else if 'a' ≤ c ∧ c ≤ 'f' then some (c.toNat - 'a'.toNat + 10)
  else if 'A' ≤ c ∧ c ≤ 'F' then some (c.toNat - 'A'.toNat + 10)
  else none

/-- Body of a JSON string after the opening quote: returns the decoded
characters and the remainder after the closing quote. -/
def parseStrBody : List Char → Option (List Char × List Char)
  | [] => none
  | '"' :: rest => some ([], rest)
  | '\\' :: esc =>
    match esc with
    | 'u' :: a :: b :: c :: d :: rest =>
      match hexVal a, hexVal b, hexVal c, hexVal d with
      | some ha, some hb, some hc, some hd =>
        let n := ((ha * 16 + hb) * 16 + hc) * 16 + hd
        (parseStrBody rest).map fun p => ((Char.ofNat n) :: p.1, p.2)
      | _, _, _, _ => none
    | c :: rest =>
      let dec : Option Char :=
        if c = '"' then some '"'
        else if c = '\\' then some '\\'
        else if c = '/' then some '/'
        else if c = 'b' then some (Char.ofNat 8)
        else if c = 'f' then some (Char.ofNat 12)
        else if c = 'n' then some '\n'
        else if c = 'r' then some '\r'
        else if c = 't' then some '\t'
        else none
      match dec with
      | some ch => (parseStrBody rest).map fun p => (ch :: p.1, p.2)
      | none => none
    | [] => none
  | c :: rest =>
    if c.toNat < 32 then none
    else (parseStrBody rest).map fun p => (c :: p.1, p.2)

/-- Lexeme of a JSON number: `-? (0 | [1-9][0-9]*) (. [0-9]+)? ([eE][+-]?[0-9]+)?`. -/
def parseNumLexeme (l : List Char) : Option (List Char × List Char) :=
  let (sign, l1) : List Char × List Char :=
    match l with
    | '-' :: t => (['-'], t)
    | t => ([], t)
  let ip := l1.takeWhile Char.isDigit
  let l2 := l1.dropWhile Char.isDigit
  if ip = [] then none
  else if ip.length > 1 ∧ ip.headD '0' = '0' then none
  else
    let (fp, l3) : List Char × List Char :=
      match l2 with
      | '.' :: t =>
        let ds := t.takeWhile Char.isDigit
        if ds = [] then ([], l2) else ('.' :: ds, t.dropWhile Char.isDigit)
      | _ => ([], l2)
    let (ep, l4) : List Char × List Char :=
      match l3 with
      | 'e' :: t | 'E' :: t =>
        let (es, t1) : List Char × List Char :=
          match t with
          | '+' :: u => (['+'], u)
          | '-' :: u => (['-'], u)
          | u => ([], u)
        let ds := t1.takeWhile Char.isDigit
        if ds = [] then ([], l3)
        else ((l3.headD 'e') :: (es ++ ds), t1.dropWhile Char.isDigit)
      | _ => ([], l3)
    some (sign ++ ip ++ fp ++ ep, l4)

mutual

/-- Fuel-driven JSON value parser (the fuel strictly decreases on every
mutual call; `JSONparse` supplies enough fuel for any input). -/
def parseVal : Nat → List Char → Option (Json × List Char)
  | 0, _ => none
  | Nat.succ fuel, l =>
    match skipWs l with
    | 'n' :: 'u' :: 'l' :: 'l' :: rest => some (Json.null, rest)
    | 't' :: 'r' :: 'u' :: 'e' :: rest => some (Json.bool true, rest)
    | 'f' :: 'a' :: 'l' :: 's' :: 'e' :: rest => some (Json.bool false, rest)
    | '"' :: rest =>
      (parseStrBody rest).map fun p => (Json.str (String.mk p.1), p.2)
    | '[' :: rest => parseArrItems fuel (skipWs rest)
    | '{' :: rest => parseObjItems fuel (skipWs rest)
    | rest => (parseNumLexeme rest).map fun p => (Json.num (String.mk p.1), p.2)

/-- Items of an array after `[` (whitespace already skipped). -/
def parseArrItems : Nat → List Char → Option (Json × List Char)
  | 0, _ => none
  | Nat.succ fuel, l =>
    match l with
    | ']' :: rest => some (Json.arr [], rest)
    | _ =>
      match parseVal fuel l with
      | some (v, rest) => parseArrRest fuel [v] rest
      | none => none

def parseArrRest : Nat → List Json → List Char → Option (Json × List Char)
  | 0, _, _ => none
  | Nat.succ fuel, acc, l =>
    match skipWs l with
    | ',' :: rest =>
      match parseVal fuel rest with
      | some (v, rest') => parseArrRest fuel (acc ++ [v]) rest'
      | none => none
    | ']' :: rest => some (Json.arr acc, rest)
    | _ => none

/-- Members of an object after `{` (whitespace already skipped). -/
def parseObjItems : Nat → List Char → Option (Json × List Char)
  | 0, _ => none
  | Nat.succ fuel, l =>
    match l with
    | '}' :: rest => some (Json.obj [], rest)
    | _ =>
      match parseMember fuel l with
      | some (kv, rest) => parseObjRest fuel [kv] rest
      | none => none

def parseMember : Nat → List Char → Option ((String × Json) × List Char)
  | 0, _ => none
  | Nat.succ fuel, l =>
    match skipWs l with
    | '"' :: rest =>
      match parseStrBody rest with
      | some (k, rest') =>
        match skipWs rest' with
        | ':' :: rest'' =>
          match parseVal fuel rest'' with
          | some (v, rest''') => some ((String.mk k, v), rest''')
          | none => none
        | _ => none
      | none => none
    | _ => none

def parseObjRest : Nat → List (String × Json) → List Char → Option (Json × List Char)
  | 0, _, _ => none
  | Nat.succ fuel, acc, l =>
    match skipWs l with
    | ',' :: rest =>
      match parseMember fuel rest with
      | some (kv, rest') => parseObjRest fuel (acc ++ [kv]) rest'
      | none => none
    | '}' :: rest => some (Json.obj acc, rest)
    | _ => none

end

/-- `JSON.parse`: parse one value, require only whitespace after it. The
fuel `2 * length + 2` dominates the two mutual calls spent per consumed
character. -/
def JSONparse (s : String) : Option Json :=
  match parseVal (2 * s.data.length + 2) s.data with
  | some (v, rest) => if (skipWs rest).isEmpty then some v else none
  | none => none

/-! ## `post-comment.js` (the PR comment builder, quality-analysis part) -/

namespace PostComment

/-- Object field access (`undefined` is `none`; JSON duplicate keys resolve
to the last occurrence, as in `JSON.parse`). -/
def jsonField (j : Json) (k : String) : Option Json :=
  match j with
  | Json.obj fields =>
    match fields.reverse.find? (fun p => p.1 == k) with
    | some p => some p.2
    | none => none
  | _ => none

/-- Is the mantissa of a number lexeme zero? -/
def numLexemeZero (lex : String) : Bool :=
  (lex.data.takeWhile (fun c => c ≠ 'e' ∧ c ≠ 'E')).all
    (fun c => !c.isDigit || c = '0')

/-- JS truthiness of a JSON value. -/
def jsonTruthy (j : Json) : Bool :=
  match j with
  | Json.null => false
  | Json.bool b => b
  | Json.num lex => !numLexemeZero lex
  | Json.str s => s ≠ ""
  | Json.arr _ => true
  | Json.obj _ => true

/-- Truthiness of `j.k`. -/
def fieldTruthy (j : Json) (k : String) : Bool :=
  match jsonField j k with
  | some v => jsonTruthy v
  | none => false

/-- A string-valued field. The source only ever calls `.trim()`/`.split()`
on these fields, which would throw on a truthy non-string and land in the
caller's catch-all; the model treats a non-string field as absent. -/
def strField (j : Json) (k : String) : Option String :=
  match jsonField j k with
  | some (Json.str s) => some s
  | _ => none

/-- `parseInt` applied to a field value (`none` models `NaN`; the display
strings of composite values are approximated). -/
def jsonParseInt (o : Option Json) : Option Int :=
  match o with
  | some (Json.str s) => parseIntJs' s
  | some (Json.num lex) => parseIntJs' lex
  | _ => none
where
  parseIntJs' (s : String) : Option Int := HtmlReport.parseIntJs s

/-- `parseInt(x) > 0` (false on `NaN`). -/
def parseIntPos (o : Option Int) : Bool :=
  match o with
  | some n => n > 0
  | none => false

/-- Template interpolation of a field value (composite displays are
approximated; only scalars occur in the verified paths). -/
def jsonDisplay (o : Option Json) : String :=
  match o with
  | none => "undefined"
  | some Json.null => "null"
  | some (Json.bool b) => if b then "true" else "false"
  | some (Json.num lex) => lex
  | some (Json.str s) => s
  | some (Json.arr _) => ""
  | some (Json.obj _) => "[object Object]"

/-- `s.split(sep)` (fuel-driven scan; the fuel dominates the characters
consumed). -/
def splitOnFuel (sep : List Char) : Nat → List Char → List Char → List (List Char)
  | 0, l, acc => [acc.reverse ++ l]
  | Nat.succ fuel, l, acc =>
    match l with
    | [] => [acc.reverse]
    | c :: rest =>
      if !sep.isEmpty && sep.isPrefixOf l then
        acc.reverse :: splitOnFuel sep fuel (l.drop sep.length) []
      else splitOnFuel sep fuel rest (c :: acc)

def jsSplitOn (sep : String) (s : String) : List String :=
  (splitOnFuel sep.data (s.data.length + 1) s.data []).map String.mk

/-- `formatDetailedSonarIssues`. -/
def formatDetailedSonarIssues (sonarResults : Json) (sonar_url : String) : String :=
  if !(jsonTruthy sonarResults && fieldTruthy sonarResults "detailed_issues") then ""
  else
    let di := (jsonField sonarResults "detailed_issues").getD Json.null
    let summary := jsonField sonarResults "summary"
    let summaryTruthy := fieldTruthy sonarResults "summary"
    let bugs := strField di "bugs"
    let vulnerabilities := strField di "vulnerabilities"
    let code_smells := strField di "code_smells"
    let bugsPart :=
      match bugs with
      | some b =>
        if b ≠ "" ∧ jsTrim b ≠ "" ∧ b ≠ "Too many issues - check SonarCloud report" then
          "\n### 🐛 Bugs Found\n\n" ++ b ++ "\n"
        else bugsFallback summary summaryTruthy sonar_url
      | none => bugsFallback summary summaryTruthy sonar_url
    let vulnsPart :=
      match vulnerabilities with
      | some v =>
        if v ≠ "" ∧ jsTrim v ≠ "" ∧ v ≠ "Too many issues - check SonarCloud report" then
          "\n### 🔒 Security Vulnerabilities\n\n" ++ v ++ "\n"
        else vulnsFallback summary summaryTruthy sonar_url
      | none => vulnsFallback summary summaryTruthy sonar_url
    let smellsPart :=
      match code_smells with
      | some c =>
        if c ≠ "" ∧ jsTrim c ≠ "" ∧ c ≠ "Too many issues - check SonarCloud report" then
          let smellsArray := (jsSplitOn "---" c).filter (fun s => jsTrim s ≠ "")
          let limitedSmells := String.intercalate "---" (smellsArray.take 5)
          "\n### 👃 Code Smells (showing first 5)\n\n" ++ limitedSmells ++
          (if smellsArray.length > 5 then
            "\n\n*... and " ++ toString (smellsArray.length - 5) ++
            " more code smell issues. Check the [SonarCloud report](" ++ sonar_url ++
            ") for complete details.*\n"
          else "") ++ "\n"
        else smellsFallback summary summaryTruthy sonar_url
      | none => smellsFallback summary summaryTruthy sonar_url
    bugsPart ++ vulnsPart ++ smellsPart
where
  bugsFallback (summary : Option Json) (summaryTruthy : Bool) (sonar_url : String) : String :=
    if summaryTruthy && parseIntPos (jsonParseInt (summary.bind (fun s => jsonField s "bugs"))) then
      "\n### 🐛 Bugs Found\n**" ++ jsonDisplay (summary.bind (fun s => jsonField s "bugs")) ++
      "** bugs detected. Check the [SonarCloud report](" ++ sonar_url ++ ") for details.\n"
    else ""
  vulnsFallback (summary : Option Json) (summaryTruthy : Bool) (sonar_url : String) : String :=
    if summaryTruthy && parseIntPos (jsonParseInt (summary.bind (fun s => jsonField s "vulnerabilities"))) then
      "\n### 🔒 Security Vulnerabilities\n**" ++
      jsonDisplay (summary.bind (fun s => jsonField s "vulnerabilities")) ++
      "** vulnerabilities detected. Check the [SonarCloud report](" ++ sonar_url ++ ") for details.\n"
    else ""
  smellsFallback (summary : Option Json) (summaryTruthy : Bool) (sonar_url : String) : String :=
    if summaryTruthy && parseIntPos (jsonParseInt (summary.bind (fun s => jsonField s "code_smells"))) then
      "\n### 👃 Code Smells\n**" ++ jsonDisplay (summary.bind (fun s => jsonField s "code_smells")) ++
      "** code smells detected. Check the [SonarCloud report](" ++ sonar_url ++ ") for details.\n"
    else ""

/-- The `detailedSonarResults` computation of `postComment`: the guarded
parse with the truncation repair; every parse failure is caught and leaves
the initial empty object. -/
def parseDetailedSonarResults (sonar_analysis_results : String) : Json :=
  if sonar_analysis_results ≠ "" ∧ sonar_analysis_results ≠ "{}" ∧
      sonar_analysis_results.data.length > 2 then
    if ¬ (jsEndsWith (jsTrim sonar_analysis_results) "\x7d" = true) ∧
        ¬ (jsEndsWith (jsTrim sonar_analysis_results) "]" = true) then
      match JSONparse (jsTrim sonar_analysis_results ++ "\x7d\x7d\x7d\x7d") with
      | some v => v
      | none => Json.obj []
    else
      match JSONparse sonar_analysis_results with
      | some v => v
      | none => Json.obj []
  else Json.obj []

/-- The Code-Quality-Analysis section of the PR comment (the lines pushed
between the section header and the Priority-Action-Items header). -/
def buildQualitySection (sonar_analysis_results sonar_status sonar_url : String)
    (bugs code_smells vulnerabilities : Int) : List String :=
  let detailedSonarResults := parseDetailedSonarResults sonar_analysis_results
  let detailedIssuesText := formatDetailedSonarIssues detailedSonarResults sonar_url
  ["## 🔧 Code Quality Analysis"] ++
  (if detailedIssuesText ≠ "" then [detailedIssuesText]
   else
     (if sonar_status ≠ "UNKNOWN" then
       let gateStatus := if sonar_status = "FAILED" then "❌ FAILED" else "✅ PASSED"
       ["**🚦 Quality Gate:** " ++ gateStatus,
        "**📋 Issues Summary:** " ++ toString bugs ++ " Bugs | " ++
          toString code_smells ++ " Code Smells | " ++ toString vulnerabilities ++
          " Vulnerabilities"]
     else ["⏳ **SonarCloud analysis is pending or unavailable.**"]) ++ [""])

end PostComment

/-! ## Supporting definitions for the theorems -/

namespace HtmlReport

/-- Number of issues in `l` whose de-duplication key is `k`. -/
def countKey (k : String) (l : List Issue) : Nat :=
  l.countP (fun i => issueKey i == k)

/-- The de-duplication keys of the `most_affected_files` records (the key
formula of the supplement loop). -/
def mostAffectedKeys (files : List FileAffected) : List String :=
  files.flatMap fun fd =>
    (fd.issues.getD []).map fun i =>
      jsShowOptStr fd.file ++ ":" ++ jsShowOptInt i.line ++ ":" ++
      jsShowOptStr i.type ++ ":" ++ jsShowOptStr i.message

/-- How many rendered issue items of the report carry key `k`: the three
categories are sorted, filtered by validity and rendered one item per
element. -/
def renderedCount (k : String) (a : AllIssues) : Nat :=
  countKey k ((sortIssues a.vulnerabilities).filter issueValid) +
  countKey k ((sortIssues a.bugs).filter issueValid) +
  countKey k ((sortIssues a.code_smells).filter issueValid)

/-- A SonarCloud issue whose message carries markup (used as concrete
escaping input). -/
def xssIssue : Issue :=
  { file := some "a.js", line := some 3, severity := some "MAJOR",
    type := some "BUG", message := some "bad <script>alert(1)</script> here",
    rule := some "r1", effort := some "5min", creation_date := none,
    update_date := none }

/-- A Trivy vulnerability whose title carries markup. -/
def xssVuln : TrivyVuln :=
  { Severity := some "HIGH", VulnerabilityID := some "CVE-2024-1",
    PkgName := some "pkg", InstalledVersion := some "1.0",
    FixedVersion := none, Title := some "bad <script>alert(1)</script> title",
    Description := some "plain description", References := none,
    CVSS_nvd_V3Score := none, CVSS_redhat_V3Score := none }

def xssTarget : TrivyTarget :=
  { Target := some "package-lock.json", Vulnerabilities := some [xssVuln] }

/-- An AI summary whose recommendation carries markup. -/
def xssAI : AIData :=
  { summary := ({ hasAttribution := true, estimatedAiPercentage := some 10, aiCommits := some 1 } : AISummary),
    recommendations := some ["avoid <script>alert(1)</script> in templates"],
    patterns := none }

/-- A raw issue used as the concrete duplicated-issue input. -/
def c8Raw : Issue :=
  { file := none, line := some 4, severity := some "MAJOR", type := some "BUG",
    message := some "dup", rule := some "r", effort := some "5min",
    creation_date := none, update_date := none }

/-- Detailed reports whose `bugs.by_file` holds the duplicated issue once. -/
def c8Dr : DetailedReports :=
  { bugs := some ({ by_file := some [("src.js", [c8Raw])], issues := none } : CategoryReport),
    vulnerabilities := none, code_smells := none }

/-- A `most_affected_files` list holding the same issue again. -/
def c8Files : List FileAffected :=
  [{ file := some "src.js", issues := some [c8Raw] }]

end HtmlReport

/-! ## Generic containment lemmas -/

theorem scontains_here (p r : String) : SContains p (p ++ r) := by
  unfold SContains
  rw [String.data_append]
  exact (List.prefix_append _ _).isInfix

theorem scontains_cons (p x r : String) (h : SContains p r) : SContains p (x ++ r) := by
  unfold SContains at *
  rw [String.data_append]
  exact h.trans (List.suffix_append _ _).isInfix

theorem scontains_last (p l : String) : SContains p (l ++ p) := by
  unfold SContains
  rw [String.data_append]
  exact (List.suffix_append _ _).isInfix

theorem scontains_appendL (p l x : String) (h : SContains p l) : SContains p (l ++ x) := by
  unfold SContains at *
  rw [String.data_append]
  exact h.trans (List.prefix_append _ _).isInfix

/-! ## Claims about the score aggregator -/

/-- Helper: the rank of the aggregator's grade as a step function. -/
theorem gradeRank_calculateGrade (x : Int) :
    CalcScore.gradeRank (CalcScore.calculateGrade x) =
      if 90 ≤ x then 4 else if 80 ≤ x then 3 else if 70 ≤ x then 2
      else if 60 ≤ x then 1 else 0 := by
  unfold CalcScore.calculateGrade CalcScore.gradeRank
  split_ifs <;> first | rfl | omega | simp_all

/-- C1: for six component scores in [0,100] with the fixed weights
25/30/20/10/10/5, the overall score is `round(weightedSum / 100)`
(`(weightedSum + 50) / 100` on naturals) and lies in [0,100] (the lower
bound is inherent to `Nat`); the concrete input
{test 80, sonar 70, security 90, frontend 60, team 50, ai 100} has weighted
sum 7500 and overall score 75. -/
theorem C1_overall_score (s : CalcScore.Scores)
    (ht : s.test ≤ 100) (hso : s.sonar ≤ 100) (hse : s.security ≤ 100)
    (hf : s.frontend ≤ 100) (htm : s.team ≤ 100) (ha : s.ai ≤ 100) :
    (CalcScore.computeBreakdown s).overall_score =
      (25 * s.test + 30 * s.sonar + 20 * s.security + 10 * s.frontend +
       10 * s.team + 5 * s.ai + 50) / 100 ∧
    (CalcScore.computeBreakdown s).overall_score ≤ 100 ∧
    CalcScore.weightedSumOf ⟨80, 70, 90, 60, 50, 100⟩ = 7500 ∧
    (CalcScore.computeBreakdown ⟨80, 70, 90, 60, 50, 100⟩).overall_score = 75 := by
  refine ⟨?_, ?_, by decide, by decide⟩
  · simp only [CalcScore.computeBreakdown, CalcScore.weightedSumOf,
      CalcScore.WEIGHTS, jsRound100]
    omega
  · simp only [CalcScore.computeBreakdown, CalcScore.weightedSumOf,
      CalcScore.WEIGHTS, jsRound100]
    omega

/-- Witness for C1 at the concrete end-to-end input. -/
theorem C1_overall_score_witness :
    (CalcScore.computeBreakdown ⟨80, 70, 90, 60, 50, 100⟩).overall_score =
      (25 * 80 + 30 * 70 + 20 * 90 + 10 * 60 + 10 * 50 + 5 * 100 + 50) / 100 ∧
    (CalcScore.computeBreakdown ⟨80, 70, 90, 60, 50, 100⟩).overall_score ≤ 100 ∧
    CalcScore.weightedSumOf ⟨80, 70, 90, 60, 50, 100⟩ = 7500 ∧
    (CalcScore.computeBreakdown ⟨80, 70, 90, 60, 50, 100⟩).overall_score = 75 :=
  C1_overall_score ⟨80, 70, 90, 60, 50, 100⟩ (by decide) (by decide) (by decide)
    (by decide) (by decide) (by decide)

/-- C2: the aggregator's grade is the inclusive-lower-bound step function
(≥90 A, ≥80 B, ≥70 C, ≥60 D, else F), it is monotone in the score, and the
boundary cases 90→A, 89→B, 80→B, 79→C hold. -/
theorem C2_calculateGrade (s : Int) :
    (90 ≤ s → CalcScore.calculateGrade s = "A") ∧
    (80 ≤ s ∧ s < 90 → CalcScore.calculateGrade s = "B") ∧
    (70 ≤ s ∧ s < 80 → CalcScore.calculateGrade s = "C") ∧
    (60 ≤ s ∧ s < 70 → CalcScore.calculateGrade s = "D") ∧
    (s < 60 → CalcScore.calculateGrade s = "F") ∧
    (∀ t : Int, s ≤ t →
      CalcScore.gradeRank (CalcScore.calculateGrade s) ≤
        CalcScore.gradeRank (CalcScore.calculateGrade t)) ∧
    CalcScore.calculateGrade 90 = "A" ∧ CalcScore.calculateGrade 89 = "B" ∧
    CalcScore.calculateGrade 80 = "B" ∧ CalcScore.calculateGrade 79 = "C" := by
  refine ⟨?_, ?_, ?_, ?_, ?_, ?_, by decide, by decide, by decide, by decide⟩
  · intro h
    unfold CalcScore.calculateGrade
    split_ifs <;> first | rfl | omega
  · intro h
    unfold CalcScore.calculateGrade
    split_ifs <;> first | rfl | omega
  · intro h
    unfold CalcScore.calculateGrade
    split_ifs <;> first | rfl | omega
  · intro h
    unfold CalcScore.calculateGrade
    split_ifs <;> first | rfl | omega
  · intro h
    unfold CalcScore.calculateGrade
    split_ifs <;> first | rfl | omega
  · intro t h
    rw [gradeRank_calculateGrade, gradeRank_calculateGrade]
    split_ifs <;> omega

/-- Witness for C2 (hypotheses discharged at 95 and 92 ≤ 93). -/
theorem C2_calculateGrade_witness :
    CalcScore.calculateGrade 95 = "A" ∧
    CalcScore.gradeRank (CalcScore.calculateGrade 92) ≤
      CalcScore.gradeRank (CalcScore.calculateGrade 93) :=
  ⟨(C2_calculateGrade 95).1 (by decide),
   (C2_calculateGrade 92).2.2.2.2.2.1 93 (by decide)⟩

/-- C4 counterexample: at scores {test 2, sonar 5, security 0, frontend 5,
team 5, ai 10} the persisted contributions sum to 6 while the persisted
overall score is 4: the drift is 2, not at most 1 as claimed. -/
theorem C4_counterexample :
    CalcScore.contribSum
      (CalcScore.computeBreakdown ⟨2, 5, 0, 5, 5, 10⟩).weighted_contributions = 6 ∧
    (CalcScore.computeBreakdown ⟨2, 5, 0, 5, 5, 10⟩).overall_score = 4 ∧
    ¬ ((CalcScore.contribSum
          (CalcScore.computeBreakdown ⟨2, 5, 0, 5, 5, 10⟩).weighted_contributions : Int) -
        ((CalcScore.computeBreakdown ⟨2, 5, 0, 5, 5, 10⟩).overall_score : Int)).natAbs ≤ 1 := by
  decide

/-- C4 (amended): for six component scores in [0,100] the sum of the six
persisted per-component contributions differs from the persisted overall
score by at most 3 in absolute value (3 is attained, see the witness). -/
theorem C4_drift_le_three (s : CalcScore.Scores)
    (ht : s.test ≤ 100) (hso : s.sonar ≤ 100) (hse : s.security ≤ 100)
    (hf : s.frontend ≤ 100) (htm : s.team ≤ 100) (ha : s.ai ≤ 100) :
    ((CalcScore.contribSum
        (CalcScore.computeBreakdown s).weighted_contributions : Int) -
      ((CalcScore.computeBreakdown s).overall_score : Int)).natAbs ≤ 3 := by
  simp only [CalcScore.computeBreakdown, CalcScore.contribSum,
    CalcScore.weightedSumOf, CalcScore.WEIGHTS, jsRound100]
  omega

/-- Witness for C4 (amended) at an input attaining drift exactly 3. -/
theorem C4_drift_le_three_witness :
    ((CalcScore.contribSum
        (CalcScore.computeBreakdown ⟨2, 5, 3, 5, 5, 10⟩).weighted_contributions : Int) -
      ((CalcScore.computeBreakdown ⟨2, 5, 3, 5, 5, 10⟩).overall_score : Int)).natAbs ≤ 3 :=
  C4_drift_le_three ⟨2, 5, 3, 5, 5, 10⟩ (by decide) (by decide) (by decide)
    (by decide) (by decide) (by decide)

/-- C6: the input sanitizer is total, returns the digit-stripped value
clamped to [0,100] (0 when no digits remain), never exceeds 100, and an
absent input yields 0. -/
theorem C6_safeInt (o : Option String) :
    CalcScore.safeInt (envOrDefault o "0") ≤ 100 ∧
    (o = none → CalcScore.safeInt (envOrDefault o "0") = 0) ∧
    ∀ s : String,
      CalcScore.safeInt s = min (digitsVal (s.data.filter Char.isDigit)) 100 ∧
      (s.data.filter Char.isDigit = [] → CalcScore.safeInt s = 0) := by
  have key : ∀ s : String,
      CalcScore.safeInt s = min (digitsVal (s.data.filter Char.isDigit)) 100 := by
    intro s
    unfold CalcScore.safeInt
    cases h : s.data.filter Char.isDigit with
    | nil => simp [h, digitsVal]
    | cons c cs => simp [h, Nat.max_zero]
  refine ⟨?_, ?_, ?_⟩
  · rw [key]
    exact Nat.min_le_right _ _
  · intro h
    subst h
    decide
  · intro s
    refine ⟨key s, ?_⟩
    intro h
    rw [key, h]
    decide

/-- Witness for C6 (hypotheses discharged at `none` and at `"abc"`). -/
theorem C6_safeInt_witness :
    CalcScore.safeInt (envOrDefault none "0") = 0 ∧ CalcScore.safeInt "abc" = 0 :=
  ⟨(C6_safeInt none).2.1 rfl, ((C6_safeInt none).2.2 "abc").2 (by decide)⟩

/-! ## Claims about the report renderers -/

/-- C3: evaluation of the issue sort at the failing input. Four valid issues
in one category with severities [MINOR, BLOCKER, MAJOR, CRITICAL] render in
the order CRITICAL, MAJOR, MINOR, BLOCKER — not BLOCKER, CRITICAL, MAJOR,
MINOR as the specification and the code's own comment state: the lookup
`severityOrder[a.severity] || 5` replaces BLOCKER's rank 0 (falsy in JS)
with the unknown-severity rank 5, so BLOCKER sorts last. -/
theorem C3_severity_sort_eval :
    (((HtmlReport.sortIssues
      [ { file := some "a.js", line := some 1, severity := some "MINOR",
          type := some "CODE_SMELL", message := some "m1", rule := none,
          effort := none, creation_date := none, update_date := none },
        { file := some "a.js", line := some 2, severity := some "BLOCKER",
          type := some "CODE_SMELL", message := some "m2", rule := none,
          effort := none, creation_date := none, update_date := none },
        { file := some "a.js", line := some 3, severity := some "MAJOR",
          type := some "CODE_SMELL", message := some "m3", rule := none,
          effort := none, creation_date := none, update_date := none },
        { file := some "a.js", line := some 4, severity := some "CRITICAL",
          type := some "CODE_SMELL", message := some "m4", rule := none,
          effort := none, creation_date := none, update_date := none } ]).filter
        HtmlReport.issueValid).map (fun i => i.severity) =
      [some "CRITICAL", some "MAJOR", some "MINOR", some "BLOCKER"]) ∧
    ¬ (((HtmlReport.sortIssues
      [ { file := some "a.js", line := some 1, severity := some "MINOR",
          type := some "CODE_SMELL", message := some "m1", rule := none,
          effort := none, creation_date := none, update_date := none },
        { file := some "a.js", line := some 2, severity := some "BLOCKER",
          type := some "CODE_SMELL", message := some "m2", rule := none,
          effort := none, creation_date := none, update_date := none },
        { file := some "a.js", line := some 3, severity := some "MAJOR",
          type := some "CODE_SMELL", message := some "m3", rule := none,
          effort := none, creation_date := none, update_date := none },
        { file := some "a.js", line := some 4, severity := some "CRITICAL",
          type := some "CODE_SMELL", message := some "m4", rule := none,
          effort := none, creation_date := none, update_date := none } ]).filter
        HtmlReport.issueValid).map (fun i => i.severity) =
      [some "BLOCKER", some "CRITICAL", some "MAJOR", some "MINOR"]) := by decide

set_option maxHeartbeats 2000000 in
/-- C10: the per-team report recomputes its displayed grade with its own
scale (≥90 A+, ≥80 A, ≥70 B, ≥60 C, ≥50 D, else F) and never reads the
persisted grade (changing that field leaves the whole HTML output
unchanged); the index page uses a third scale (≥90 A+, ≥85 A, ≥80 A-, ≥75
B+, ≥70 B, ≥65 B-, ≥60 C+, ≥55 C, ≥50 C-, else F); consequently, for every
overall score in [80,90) the aggregator persists grade B while the report
displays grade A. -/
theorem C10_grade_recomputation :
    (∀ s : Int,
      (HtmlReport.getScoreGrade s).grade =
        (if 90 ≤ s then "A+" else if 80 ≤ s then "A" else if 70 ≤ s then "B"
         else if 60 ≤ s then "C" else if 50 ≤ s then "D" else "F")) ∧
    (∀ (teamName : String) (rd : HtmlReport.ReportData) (sd : HtmlReport.ScoreData)
        (g : Option String) (ts : String),
      rd.scoreData = some sd →
      HtmlReport.generateHTML teamName
          { rd with scoreData := some { sd with grade := g } } ts =
        HtmlReport.generateHTML teamName rd ts) ∧
    (∀ s : Int,
      (IndexPage.getScoreGrade s).grade =
        (if 90 ≤ s then "A+" else if 85 ≤ s then "A" else if 80 ≤ s then "A-"
         else if 75 ≤ s then "B+" else if 70 ≤ s then "B" else if 65 ≤ s then "B-"
         else if 60 ≤ s then "C+" else if 55 ≤ s then "C" else if 50 ≤ s then "C-"
         else "F")) ∧
    (∀ s : Int, 80 ≤ s → s < 90 →
      CalcScore.calculateGrade s = "B" ∧ (HtmlReport.getScoreGrade s).grade = "A") := by
  refine ⟨?_, ?_, ?_, ?_⟩
  · intro s
    unfold HtmlReport.getScoreGrade
    split_ifs <;> rfl
  · intro teamName rd sd g ts h
    cases rd with
    | mk sc a1 a2 a3 a4 a5 a6 a7 a8 =>
      change sc = some sd at h
      subst h
      rfl
  · intro s
    unfold IndexPage.getScoreGrade
    split_ifs <;> rfl
  · intro s h1 h2
    constructor
    · unfold CalcScore.calculateGrade
      split_ifs <;> first | rfl | omega
    · unfold HtmlReport.getScoreGrade
      split_ifs <;> first | rfl | omega

set_option maxHeartbeats 2000000 in
/-- Witness for C10: the persisted-grade field is ignored at a concrete
report input, and at overall score 85 the aggregator persists B while the
report shows A. -/
theorem C10_grade_recomputation_witness :
    (HtmlReport.generateHTML "t"
        { scoreData := some ({ overall_score := some 85, grade := some "Z", component_scores := none, weights := none } : HtmlReport.ScoreData),
          securityData := none, sonarData := none, teamData := none,
          aiData := none, coverageData := none, trivyData := none,
          prNumber := none } "ts" =
      HtmlReport.generateHTML "t"
        { scoreData := some ({ overall_score := some 85, grade := some "B", component_scores := none, weights := none } : HtmlReport.ScoreData),
          securityData := none, sonarData := none, teamData := none,
          aiData := none, coverageData := none, trivyData := none,
          prNumber := none } "ts") ∧
    CalcScore.calculateGrade 85 = "B" ∧ (HtmlReport.getScoreGrade 85).grade = "A" :=
  ⟨C10_grade_recomputation.2.1 "t"
      { scoreData := some ({ overall_score := some 85, grade := some "B", component_scores := none, weights := none } : HtmlReport.ScoreData),
        securityData := none, sonarData := none, teamData := none,
        aiData := none, coverageData := none, trivyData := none,
        prNumber := none }
      { overall_score := some 85, grade := some "B", component_scores := none, weights := none }
      (some "Z") "ts" rfl,
   (C10_grade_recomputation.2.2.2 85 (by decide) (by decide)).1,
   (C10_grade_recomputation.2.2.2 85 (by decide) (by decide)).2⟩

/-- C7: for every report-data record (in particular for every subset of
absent collaborator summaries) the renderer — a total function in this
embedding, so it cannot throw — emits all six section headers, and each of
the five detail sections whose summary is absent contains its fixed
placeholder sentence. -/
theorem C7_renderer_resilience (teamName ts : String) (rd : HtmlReport.ReportData) :
    SContains "<h2>📊 Score Breakdown</h2>" (HtmlReport.generateHTML teamName rd ts) ∧
    SContains "<h2>⚡ Code Quality & Issues (SonarCloud)</h2>"
      (HtmlReport.generateHTML teamName rd ts) ∧
    SContains "<h2>🔒 Security Analysis & Vulnerabilities</h2>"
      (HtmlReport.generateHTML teamName rd ts) ∧
    SContains "<h2>👥 Team Collaboration</h2>" (HtmlReport.generateHTML teamName rd ts) ∧
    SContains "<h2>🤖 AI Attribution Analysis</h2>" (HtmlReport.generateHTML teamName rd ts) ∧
    SContains "<h2>🧪 Test Coverage</h2>" (HtmlReport.generateHTML teamName rd ts) ∧
    (rd.sonarData = none →
      SContains "<p>No SonarCloud data available</p>" (HtmlReport.generateHTML teamName rd ts)) ∧
    (rd.securityData = none →
      SContains "<p>No security data available</p>" (HtmlReport.generateHTML teamName rd ts)) ∧
    (rd.teamData = none →
      SContains "<p>No team data available</p>" (HtmlReport.generateHTML teamName rd ts)) ∧
    (rd.aiData = none →
      SContains "<p>No AI analysis data available</p>" (HtmlReport.generateHTML teamName rd ts)) ∧
    (rd.coverageData = none →
      SContains "<p>No coverage data available</p>" (HtmlReport.generateHTML teamName rd ts)) := by
  cases rd with
  | mk sc sec son tm ai cov tr pn gh =>
    refine ⟨?_, ?_, ?_, ?_, ?_, ?_, ?_, ?_, ?_, ?_, ?_⟩ <;>
      try intro h
    all_goals try (change _ = none at h; subst h)
    all_goals
      simp only [HtmlReport.generateHTML, HtmlReport.generateSonarDetails,
        HtmlReport.generateSecurityDetails, HtmlReport.generateTeamDetails,
        HtmlReport.generateAIDetails]
    all_goals
      repeat first
        | (with_reducible exact scontains_last _ _)
        | (with_reducible exact scontains_here _ _)
        | (with_reducible apply scontains_appendL)
        | (with_reducible apply scontains_cons)

/-- Witness for C7 at the all-absent report data. -/
theorem C7_renderer_resilience_witness :
    SContains "<p>No SonarCloud data available</p>"
      (HtmlReport.generateHTML "t"
        { scoreData := none, securityData := none, sonarData := none,
          teamData := none, aiData := none, coverageData := none,
          trivyData := none, prNumber := none } "ts") ∧
    SContains "<p>No security data available</p>"
      (HtmlReport.generateHTML "t"
        { scoreData := none, securityData := none, sonarData := none,
          teamData := none, aiData := none, coverageData := none,
          trivyData := none, prNumber := none } "ts") ∧
    SContains "<p>No team data available</p>"
      (HtmlReport.generateHTML "t"
        { scoreData := none, securityData := none, sonarData := none,
          teamData := none, aiData := none, coverageData := none,
          trivyData := none, prNumber := none } "ts") ∧
    SContains "<p>No AI analysis data available</p>"
      (HtmlReport.generateHTML "t"
        { scoreData := none, securityData := none, sonarData := none,
          teamData := none, aiData := none, coverageData := none,
          trivyData := none, prNumber := none } "ts") ∧
    SContains "<p>No coverage data available</p>"
      (HtmlReport.generateHTML "t"
        { scoreData := none, securityData := none, sonarData := none,
          teamData := none, aiData := none, coverageData := none,
          trivyData := none, prNumber := none } "ts") :=
  ⟨(C7_renderer_resilience "t" "ts" _).2.2.2.2.2.2.1 rfl,
   (C7_renderer_resilience "t" "ts" _).2.2.2.2.2.2.2.1 rfl,
   (C7_renderer_resilience "t" "ts" _).2.2.2.2.2.2.2.2.1 rfl,
   (C7_renderer_resilience "t" "ts" _).2.2.2.2.2.2.2.2.2.1 rfl,
   (C7_renderer_resilience "t" "ts" _).2.2.2.2.2.2.2.2.2.2 rfl⟩

/-- Helper: the escape map never emits a raw `<`, `>`, `"` or `'`. -/
theorem escChar_no_specials (c c' : Char) (h : c' ∈ HtmlReport.escChar c) :
    c' ≠ '<' ∧ c' ≠ '>' ∧ c' ≠ '"' ∧ c' ≠ '\'' := by
  unfold HtmlReport.escChar at h
  split_ifs at h with h1 h2 h3 h4 h5
  · fin_cases h <;> decide
  · fin_cases h <;> decide
  · fin_cases h <;> decide
  · fin_cases h <;> decide
  · fin_cases h <;> decide
  · simp only [List.mem_singleton] at h
    subst h
    exact ⟨h1, h2, h4, h5⟩

/-- Helper: escaped strings contain none of the four markup-significant raw
characters. -/
theorem escapeHtml_no_specials (s : String) (c : Char)
    (hc : c = '<' ∨ c = '>' ∨ c = '"' ∨ c = '\'') :
    c ∉ (HtmlReport.escapeHtml s).data := by
  intro hmem
  have : (HtmlReport.escapeHtml s).data = s.data.flatMap HtmlReport.escChar := rfl
  rw [this, List.mem_flatMap] at hmem
  obtain ⟨a, _, ha⟩ := hmem
  have h4 := escChar_no_specials a c ha
  rcases hc with rfl | rfl | rfl | rfl
  · exact h4.1 rfl
  · exact h4.2.1 rfl
  · exact h4.2.2.1 rfl
  · exact h4.2.2.2 rfl

set_option maxRecDepth 40000 in
/-- C5 counterexample: a Trivy vulnerability title and an AI recommendation
containing `<script>` are interpolated into the report unescaped — the raw
substring `<script>` appears in the output, refuting the claim that every
collaborator string is HTML-escaped before insertion. -/
theorem C5_counterexample :
    strContainsSub "<script>" (HtmlReport.generateTrivyDetails [HtmlReport.xssTarget]) = true ∧
    strContainsSub "<script>" (HtmlReport.generateAIDetails (some HtmlReport.xssAI)) = true := by
  exact ⟨rfl, rfl⟩

set_option maxRecDepth 40000 in
/-- C5 (amended): the five-character HTML escaping holds exactly for the
SonarCloud detailed-issue strings (file, message, rule, effort): the escape
map leaves no raw `<`, `>`, `"` or `'` in its output, every rendered issue
item embeds the escaped message (so a message containing `<script>` renders
only in escaped form, as the concrete instance shows); Trivy vulnerability
titles/descriptions and AI recommendations, however, are interpolated
without escaping (see the counterexample). -/
theorem C5_escaping_amended :
    (∀ s : String,
      '<' ∉ (HtmlReport.escapeHtml s).data ∧ '>' ∉ (HtmlReport.escapeHtml s).data ∧
      '"' ∉ (HtmlReport.escapeHtml s).data ∧ '\'' ∉ (HtmlReport.escapeHtml s).data) ∧
    (∀ (githubRepo : String) (issue : HtmlReport.Issue),
      SContains (HtmlReport.escapeHtml (jsOrStr issue.message "No description available"))
        (HtmlReport.renderIssueItem githubRepo issue)) ∧
    strContainsSub "&lt;script&gt;"
      (HtmlReport.renderIssueItem "CoTuring/NodeGoat" HtmlReport.xssIssue) = true ∧
    strContainsSub "<script>"
      (HtmlReport.renderIssueItem "CoTuring/NodeGoat" HtmlReport.xssIssue) = false := by
  refine ⟨?_, ?_, rfl, rfl⟩
  · intro s
    exact ⟨escapeHtml_no_specials s _ (Or.inl rfl),
           escapeHtml_no_specials s _ (Or.inr (Or.inl rfl)),
           escapeHtml_no_specials s _ (Or.inr (Or.inr (Or.inl rfl))),
           escapeHtml_no_specials s _ (Or.inr (Or.inr (Or.inr rfl)))⟩
  · intro githubRepo issue
    simp only [HtmlReport.renderIssueItem]
    repeat first
      | (with_reducible exact scontains_last _ _)
      | (with_reducible exact scontains_here _ _)
      | (with_reducible apply scontains_appendL)
      | (with_reducible apply scontains_cons)

/-- Helper: appending an issue with a different key changes no count. -/
theorem countKey_pushByType_ne (k : String) (acc : HtmlReport.AllIssues)
    (conv : HtmlReport.Issue) (h : HtmlReport.issueKey conv ≠ k) :
    HtmlReport.countKey k (HtmlReport.flatAll (HtmlReport.pushByType acc conv)) =
      HtmlReport.countKey k (HtmlReport.flatAll acc) := by
  have hc : (HtmlReport.issueKey conv == k) = false := by
    simp [h]
  unfold HtmlReport.pushByType HtmlReport.flatAll HtmlReport.countKey
  split_ifs <;>
    simp [List.countP_append, List.countP_cons, hc] <;> omega

/-- Helper: the inner `most_affected_files` loop neither adds an issue whose
key is already seen nor forgets a seen key. -/
theorem addFileIssues_invariant (file : Option String) (is : List HtmlReport.Issue)
    (seen : List String) (acc : HtmlReport.AllIssues) (k : String) (hk : k ∈ seen) :
    HtmlReport.countKey k (HtmlReport.flatAll (HtmlReport.addFileIssues file is seen acc).2) =
      HtmlReport.countKey k (HtmlReport.flatAll acc) ∧
    k ∈ (HtmlReport.addFileIssues file is seen acc).1 := by
  induction is generalizing seen acc with
  | nil => exact ⟨rfl, hk⟩
  | cons issue rest ih =>
    simp only [HtmlReport.addFileIssues]
    by_cases hc : seen.contains
      (jsShowOptStr file ++ ":" ++ jsShowOptInt issue.line ++ ":" ++
        jsShowOptStr issue.type ++ ":" ++ jsShowOptStr issue.message)
    · rw [if_pos hc]
      exact ih seen acc hk
    · rw [if_neg hc]
      have hne : (jsShowOptStr file ++ ":" ++ jsShowOptInt issue.line ++ ":" ++
          jsShowOptStr issue.type ++ ":" ++ jsShowOptStr issue.message) ≠ k := by
        intro he
        subst he
        exact hc (List.elem_eq_true_of_mem hk)
      have hkey : HtmlReport.issueKey (HtmlReport.convertedIssueOf file issue) =
          (jsShowOptStr file ++ ":" ++ jsShowOptInt issue.line ++ ":" ++
            jsShowOptStr issue.type ++ ":" ++ jsShowOptStr issue.message) := rfl
      have hrec := ih ((jsShowOptStr file ++ ":" ++ jsShowOptInt issue.line ++ ":" ++
          jsShowOptStr issue.type ++ ":" ++ jsShowOptStr issue.message) :: seen)
        (HtmlReport.pushByType acc (HtmlReport.convertedIssueOf file issue))
        (List.mem_cons_of_mem _ hk)
      refine ⟨?_, hrec.2⟩
      rw [hrec.1, countKey_pushByType_ne k acc _ (by rw [hkey]; exact hne)]

/-- Helper: the whole `most_affected_files` supplement keeps the count of
every already-seen key unchanged. -/
theorem addMostAffected_count (files : List HtmlReport.FileAffected)
    (seen : List String) (acc : HtmlReport.AllIssues) (k : String) (hk : k ∈ seen) :
    HtmlReport.countKey k (HtmlReport.flatAll (HtmlReport.addMostAffected files seen acc)) =
      HtmlReport.countKey k (HtmlReport.flatAll acc) := by
  induction files generalizing seen acc with
  | nil => rfl
  | cons fd rest ih =>
    simp only [HtmlReport.addMostAffected]
    cases hfi : fd.issues with
    | none => exact ih seen acc hk
    | some is =>
      have h := addFileIssues_invariant fd.file is seen acc k hk
      rw [ih _ _ h.2]
      exact h.1

/-- Helper: a key counted once is among the keys of the list. -/
theorem mem_keys_of_countKey_one {k : String} {l : List HtmlReport.Issue}
    (h : HtmlReport.countKey k l = 1) : k ∈ l.map HtmlReport.issueKey := by
  have hpos : 0 < HtmlReport.countKey k l := by omega
  rw [HtmlReport.countKey, List.countP_pos] at hpos
  obtain ⟨a, ha, hpa⟩ := hpos
  exact List.mem_map.mpr ⟨a, ha, eq_of_beq hpa⟩

/-- Helper: sorting then filtering by validity keeps the count of a key all
of whose carriers are valid. -/
theorem countKey_sorted_filter (k : String) (l : List HtmlReport.Issue)
    (hv : ∀ i ∈ l, HtmlReport.issueKey i = k → HtmlReport.issueValid i = true) :
    HtmlReport.countKey k ((HtmlReport.sortIssues l).filter HtmlReport.issueValid) =
      HtmlReport.countKey k l := by
  unfold HtmlReport.countKey HtmlReport.sortIssues
  rw [List.countP_filter]
  rw [(List.perm_insertionSort HtmlReport.issueOrder l).countP_eq]
  apply List.countP_congr
  intro x hx
  cases hbe : (HtmlReport.issueKey x == k) with
  | false => simp [hbe]
  | true =>
    have hval := hv x hx (eq_of_beq hbe)
    simp [hbe, hval]

/-- C8: an issue whose de-duplication key occurs exactly once in the
primary (`by_file` + fallback) extraction and also occurs in the
`most_affected_files` supplement is kept exactly once by the merge, and
(when its carriers are valid) is rendered exactly once in the report. -/
theorem C8_dedup (dr : HtmlReport.DetailedReports)
    (files : List HtmlReport.FileAffected) (k : String)
    (h1 : HtmlReport.countKey k (HtmlReport.flatAll (HtmlReport.primaryIssues dr)) = 1)
    (h2 : k ∈ HtmlReport.mostAffectedKeys files)
    (hv : ∀ i ∈ HtmlReport.flatAll
        (HtmlReport.collectAllIssues dr (some ⟨some files⟩)),
      HtmlReport.issueKey i = k → HtmlReport.issueValid i = true) :
    HtmlReport.countKey k
      (HtmlReport.flatAll (HtmlReport.collectAllIssues dr (some ⟨some files⟩))) = 1 ∧
    HtmlReport.renderedCount k (HtmlReport.collectAllIssues dr (some ⟨some files⟩)) = 1 := by
  have hseen := mem_keys_of_countKey_one h1
  have hcol : HtmlReport.collectAllIssues dr (some ⟨some files⟩) =
      HtmlReport.addMostAffected files
        ((HtmlReport.flatAll (HtmlReport.primaryIssues dr)).map HtmlReport.issueKey)
        (HtmlReport.primaryIssues dr) := rfl
  have hcount : HtmlReport.countKey k
      (HtmlReport.flatAll (HtmlReport.collectAllIssues dr (some ⟨some files⟩))) = 1 := by
    rw [hcol, addMostAffected_count _ _ _ _ hseen]
    exact h1
  refine ⟨hcount, ?_⟩
  have hsplit : ∀ b : HtmlReport.AllIssues,
      HtmlReport.countKey k (HtmlReport.flatAll b) =
        HtmlReport.countKey k b.vulnerabilities + HtmlReport.countKey k b.bugs +
        HtmlReport.countKey k b.code_smells := by
    intro b
    unfold HtmlReport.flatAll HtmlReport.countKey
    rw [List.countP_append, List.countP_append]
  have hmemv : ∀ i ∈ (HtmlReport.collectAllIssues dr (some ⟨some files⟩)).vulnerabilities,
      i ∈ HtmlReport.flatAll (HtmlReport.collectAllIssues dr (some ⟨some files⟩)) := by
    intro i hi
    exact List.mem_append.mpr (Or.inl (List.mem_append.mpr (Or.inl hi)))
  have hmemb : ∀ i ∈ (HtmlReport.collectAllIssues dr (some ⟨some files⟩)).bugs,
      i ∈ HtmlReport.flatAll (HtmlReport.collectAllIssues dr (some ⟨some files⟩)) := by
    intro i hi
    exact List.mem_append.mpr (Or.inl (List.mem_append.mpr (Or.inr hi)))
  have hmems : ∀ i ∈ (HtmlReport.collectAllIssues dr (some ⟨some files⟩)).code_smells,
      i ∈ HtmlReport.flatAll (HtmlReport.collectAllIssues dr (some ⟨some files⟩)) := by
    intro i hi
    exact List.mem_append.mpr (Or.inr hi)
  unfold HtmlReport.renderedCount
  rw [countKey_sorted_filter k _ (fun i hi => hv i (hmemv i hi)),
      countKey_sorted_filter k _ (fun i hi => hv i (hmemb i hi)),
      countKey_sorted_filter k _ (fun i hi => hv i (hmems i hi))]
  have := hsplit (HtmlReport.collectAllIssues dr (some ⟨some files⟩))
  omega

/-- Witness for C8: the issue `src.js:4:BUG:dup` appears once in the
`by_file` index and once in `most_affected_files`; after the merge it is
counted and rendered exactly once. -/
theorem C8_dedup_witness :
    HtmlReport.countKey "src.js:4:BUG:dup"
      (HtmlReport.flatAll
        (HtmlReport.collectAllIssues HtmlReport.c8Dr (some ⟨some HtmlReport.c8Files⟩))) = 1 ∧
    HtmlReport.renderedCount "src.js:4:BUG:dup"
      (HtmlReport.collectAllIssues HtmlReport.c8Dr (some ⟨some HtmlReport.c8Files⟩)) = 1 :=
  C8_dedup HtmlReport.c8Dr HtmlReport.c8Files "src.js:4:BUG:dup"
    (by decide) (by decide) (by decide)

/-! ## Claim about the PR comment builder -/

/-- C9: for every truncated quality-analysis payload (one not ending, after
trimming, in a closing brace or bracket) whose brace-appending repair parse
also fails, the comment builder — total in this embedding, every parse
failure being caught — emits the counts-only fallback (or the pending
notice when the collaborator never ran) as its quality-analysis section. -/
theorem C9_truncated_fallback (s status url : String) (bugs smells vulns : Int)
    (h1 : jsEndsWith (jsTrim s) "\x7d" = false)
    (h2 : jsEndsWith (jsTrim s) "]" = false)
    (h3 : JSONparse (jsTrim s ++ "\x7d\x7d\x7d\x7d") = none) :
    PostComment.buildQualitySection s status url bugs smells vulns =
      ["## 🔧 Code Quality Analysis"] ++
      (if status ≠ "UNKNOWN" then
        ["**🚦 Quality Gate:** " ++ (if status = "FAILED" then "❌ FAILED" else "✅ PASSED"),
         "**📋 Issues Summary:** " ++ toString bugs ++ " Bugs | " ++
           toString smells ++ " Code Smells | " ++ toString vulns ++ " Vulnerabilities"]
      else ["⏳ **SonarCloud analysis is pending or unavailable.**"]) ++ [""] := by
  have hp : PostComment.parseDetailedSonarResults s = Json.obj [] := by
    unfold PostComment.parseDetailedSonarResults
    by_cases hc : s ≠ "" ∧ s ≠ "{}" ∧ s.data.length > 2
    · rw [if_pos hc, if_pos ⟨by simp [h1], by simp [h2]⟩, h3]
    · rw [if_neg hc]
  have hf : PostComment.formatDetailedSonarIssues (Json.obj []) url = "" := rfl
  unfold PostComment.buildQualitySection
  rw [hp]
  simp [hf, List.append_assoc]

/-- Witness for C9 at a concrete truncated payload: the repair
`{"detailed_issues": {"bugs": "x"` + four closing braces still fails to
parse (two braces of it are trailing garbage), and the section falls back
to the counts-only summary lines. -/
theorem C9_truncated_fallback_witness :
    PostComment.buildQualitySection "\x7b\"detailed_issues\": \x7b\"bugs\": \"x\"" "PASSED" "#" 2 3 1 =
      ["## 🔧 Code Quality Analysis"] ++
      (if "PASSED" ≠ "UNKNOWN" then
        ["**🚦 Quality Gate:** " ++ (if "PASSED" = "FAILED" then "❌ FAILED" else "✅ PASSED"),
         "**📋 Issues Summary:** " ++ toString (2 : Int) ++ " Bugs | " ++
           toString (3 : Int) ++ " Code Smells | " ++ toString (1 : Int) ++ " Vulnerabilities"]
      else ["⏳ **SonarCloud analysis is pending or unavailable.**"]) ++ [""] :=
  C9_truncated_fallback "\x7b\"detailed_issues\": \x7b\"bugs\": \"x\"" "PASSED" "#" 2 3 1
    (by decide) (by decide) (by rfl)
